import Mathlib

/-!
Verification development for the SummaryFlow message-summarization pipeline
(`summaryflow_v3.py`, `summaryflow_v4.py`, `context_cleaner_v4.py`,
`summaryflow_service/`).

Python strings are sequences of Unicode code points, so texts are modelled as
`List Char`.  Machine-level concerns that the claims do not exercise
(`unicodedata.normalize("NFKC", ...)` beyond ASCII, `emoji.demojize` on
emoji-free text, local-timezone conversion of offset-naive timestamps) are
modelled as the identity on the inputs the claims use; each such spot carries a
doc comment saying exactly what is modelled.

Python `datetime` values are modelled as a day number (days since 1970-01-01,
proleptic Gregorian, always UTC) together with hour/minute/second fields;
`datetime` construction from components is fallible (Python raises `ValueError`
on out-of-range components), which is modelled with `Except Unit`.
-/

/-- A Python `str`: a sequence of Unicode code points. -/
abbrev Str := List Char

/-- Shorthand turning a Lean string literal into the `List Char` model. -/
def strL (s : String) : Str := s.data

/-- Python `\s` (and `str.strip()` whitespace) restricted to the ASCII
whitespace characters: space, tab, newline, carriage return, vertical tab,
form feed. -/
def pyIsSpace (c : Char) : Bool :=
  c = ' ' || c = '\t' || c = '\n' || c = '\r' || c = '\x0b' || c = '\x0c'

/-- Python `\w`: letters, digits and underscore (ASCII fragment; the texts the
pipeline scans with `\b` are ASCII). -/
def wordChar (c : Char) : Bool :=
  c.isAlpha || c.isDigit || c = '_'

/-- ASCII lower-casing of one character (`str.lower()` on the ASCII fragment
the pipeline's keyword scans use). -/
def lowerChar (c : Char) : Char :=
  if 'A' ≤ c && c ≤ 'Z' then Char.ofNat (c.toNat + 32) else c

/-- `str.lower()` on the ASCII fragment. -/
def strLower (s : Str) : Str := s.map lowerChar

/-- Decidable list-prefix test used to model `str.startswith` and anchored
regex literals. -/
def strStarts (pre s : Str) : Bool :=
  List.isPrefixOf pre s

/-- `needle in haystack` (Python substring containment). -/
def containsSub (hay needle : Str) : Bool :=
  match hay with
  | [] => List.isPrefixOf needle []
  | _ :: t => List.isPrefixOf needle hay || containsSub t needle

/-- `str.strip()`: drop leading and trailing whitespace. -/
def pyStrip (s : Str) : Str :=
  ((s.dropWhile pyIsSpace).reverse.dropWhile pyIsSpace).reverse

/-- `str.splitlines()` restricted to the line breaks the repository's texts
use: `\n`, `\r\n` and `\r`. -/
def splitLines (s : Str) : List Str :=
  go s []
where
  go : Str → Str → List Str
  | [], [] => []
  | [], acc => [acc.reverse]
  | '\r' :: '\n' :: t, acc => acc.reverse :: go t []
  | '\r' :: t, acc => acc.reverse :: go t []
  | '\n' :: t, acc => acc.reverse :: go t []
  | c :: t, acc => go t (c :: acc)

theorem dropWhile_length_le (p : Char → Bool) (l : Str) :
    (l.dropWhile p).length ≤ l.length := by
  induction l with
  | nil => simp
  | cons c t ih =>
    by_cases h : p c
    · simp only [List.dropWhile, h]
      exact Nat.le_trans ih (Nat.le_succ _)
    · simp only [List.dropWhile, h]
      simp

/-- Worker for `pySplit`: `acc` is the current token, reversed. -/
def pySplitGo (acc : Str) : Str → List Str
  | [] => if acc.isEmpty then [] else [acc.reverse]
  | c :: t =>
    if pyIsSpace c then
      if acc.isEmpty then pySplitGo [] t else acc.reverse :: pySplitGo [] t
    else pySplitGo (c :: acc) t

/-- `str.split()` with no argument: split on whitespace runs, no empty parts. -/
def pySplit (s : Str) : List Str :=
  pySplitGo [] s

/-- `sep.join(parts)`. -/
def joinWith (sep : Str) : List Str → Str
  | [] => []
  | [x] => x
  | x :: xs => x ++ sep ++ joinWith sep xs

/-- `re.sub(r"\s+", " ", text)`: collapse every whitespace run to one space. -/
def collapseWS : Str → Str
  | [] => []
  | [c] => if pyIsSpace c then [' '] else [c]
  | c :: d :: t =>
    if pyIsSpace c && pyIsSpace d then collapseWS (d :: t)
    else (if pyIsSpace c then ' ' else c) :: collapseWS (d :: t)

/-- `_normalize_spacing` (summaryflow_v3.py): `re.sub(r"\s+", " ", text).strip()`. -/
def normalize_spacing (s : Str) : Str :=
  pyStrip (collapseWS s)

/-- Decimal digits of a positive number, fuel-bounded (the fuel of 20 covers
every value below 10^20, far beyond anything a `datetime` can format). -/
def natDigitsAux : Nat → Nat → Str
  | 0, _ => []
  | fuel + 1, n =>
    if n = 0 then [] else natDigitsAux fuel (n / 10) ++ [Char.ofNat (48 + n % 10)]

/-- Decimal digits of a natural number (for `strftime`-style formatting). -/
def natDigits (n : Nat) : Str :=
  if n = 0 then ['0'] else natDigitsAux 20 n

/-- Zero-pad a decimal rendering to width `w` (`%02d`, `%04d`). -/
def padNat (w n : Nat) : Str :=
  let d := natDigits n
  List.replicate (w - d.length) '0' ++ d

/-- Parse a digit run as a natural number (Python `int` on a `\d+` match). -/
def natOfDigits (s : Str) : Nat :=
  s.foldl (fun a c => a * 10 + (c.toNat - 48)) 0

/-! ### Dates and times

`PyDateTime` models a timezone-aware UTC `datetime.datetime`: `days` is the
day number relative to 1970-01-01 in the proleptic Gregorian calendar, and
`hour`/`minute`/`second` the time of day.  `timedelta` arithmetic and
`datetime.weekday()` act on this representation exactly as in Python; the
year-range overflow of Python's `datetime` (years outside 1..9999) is not
modelled for *arithmetic* (none of the claims cross it), but construction from
components (`datetime(y, m, d, h, mi)`) checks its ranges and fails like the
Python constructor raises `ValueError`. -/

structure PyDateTime where
  days : Int
  hour : Nat
  minute : Nat
  second : Nat
deriving Repr, DecidableEq

/-- Day number of a proleptic-Gregorian civil date (days since 1970-01-01);
the standard civil-from-days/days-from-civil conversion. -/
def daysFromCivil (y m d : Int) : Int :=
  let y := if m ≤ 2 then y - 1 else y
  let era := y / 400
  let yoe := y - era * 400
  let mp := (m + 9) % 12
  let doy := (153 * mp + 2) / 5 + d - 1
  let doe := yoe * 365 + yoe / 4 - yoe / 100 + doy
  era * 146097 + doe - 719468

/-- Civil date (year, month, day) of a day number; inverse of `daysFromCivil`. -/
def civilFromDays (z : Int) : Int × Int × Int :=
  let z := z + 719468
  let era := z / 146097
  let doe := z - era * 146097
  let yoe := (doe - doe / 1460 + doe / 36524 - doe / 146096) / 365
  let y := yoe + era * 400
  let doy := doe - (365 * yoe + yoe / 4 - yoe / 100)
  let mp := (5 * doy + 2) / 153
  let d := doy - (153 * mp + 2) / 5 + 1
  let m := (mp + 2) % 12 + 1
  (if m ≤ 2 then y + 1 else y, m, d)

/-- `datetime.weekday()`: Monday = 0 … Sunday = 6 (1970-01-01 was a Thursday). -/
def pyWeekday (days : Int) : Int :=
  (days + 3) % 7

/-- Gregorian leap-year test. -/
def isLeap (y : Int) : Bool :=
  (y % 4 = 0 && y % 100 ≠ 0) || y % 400 = 0

/-- Days in a month (for `datetime` range validation). -/
def daysInMonth (y m : Int) : Int :=
  if m = 2 then (if isLeap y then 29 else 28)
  else if m = 4 || m = 6 || m = 9 || m = 11 then 30
  else 31

/-- `datetime(year, month, day, hour, minute, tzinfo=utc)`: `ValueError`
(modelled as `.error ()`) when a component is out of Python's ranges. -/
def pyDatetime (y m d : Int) (h mi : Nat) : Except Unit PyDateTime :=
  if 1 ≤ y && y ≤ 9999 && 1 ≤ m && m ≤ 12 && 1 ≤ d && d ≤ daysInMonth y m
      && h ≤ 23 && mi ≤ 59 then
    .ok { days := daysFromCivil y m d, hour := h, minute := mi, second := 0 }
  else .error ()

/-- `datetime(date.year, date.month, date.day, h, m, tzinfo=utc)` where the
date part comes from an existing (hence valid) date: only the time components
can be out of range. -/
def pyDatetimeOnDay (days : Int) (h mi : Nat) : Except Unit PyDateTime :=
  if h ≤ 23 && mi ≤ 59 then
    .ok { days := days, hour := h, minute := mi, second := 0 }
  else .error ()

/-- Seconds since midnight. -/
def PyDateTime.secOfDay (t : PyDateTime) : Int :=
  (t.hour : Int) * 3600 + (t.minute : Int) * 60 + (t.second : Int)

/-- `dt + timedelta(seconds=s)` (also used for minute/hour/day offsets). -/
def PyDateTime.addSeconds (t : PyDateTime) (s : Int) : PyDateTime :=
  let tot := t.days * 86400 + t.secOfDay + s
  let days := tot / 86400
  let rem := (tot - days * 86400).toNat
  { days := days, hour := rem / 3600, minute := rem % 3600 / 60, second := rem % 60 }

/-- `dt + timedelta(days=k)` (UTC: exactly `k`·86400 seconds, time unchanged). -/
def PyDateTime.addDays (t : PyDateTime) (k : Int) : PyDateTime :=
  { t with days := t.days + k }

/-- `(target - anchor).total_seconds()` as an exact integer (both datetimes
have whole-second precision, so the float is exact and the comparisons
`hours <= 6` / `hours <= 48` in `_classify_urgency` are equivalent to integer
comparisons on seconds). -/
def deltaSeconds (target anchor : PyDateTime) : Int :=
  (target.days - anchor.days) * 86400 + (target.secOfDay - anchor.secOfDay)

/-- `_format_iso_utc` (summaryflow_v3.py): `strftime("%Y-%m-%dT%H:%M:%SZ")`. -/
def format_iso_utc (t : PyDateTime) : Str :=
  let c := civilFromDays t.days
  padNat 4 c.1.toNat ++ strL "-" ++ padNat 2 c.2.1.toNat ++ strL "-" ++
    padNat 2 c.2.2.toNat ++ strL "T" ++ padNat 2 t.hour ++ strL ":" ++
    padNat 2 t.minute ++ strL ":" ++ padNat 2 t.second ++ strL "Z"

/-! ### Keyword classification (`summaryflow_v3.py`) -/

/-- `any(w in t for w in ws)`. -/
def containsAny (t : Str) (ws : List Str) : Bool :=
  ws.any (fun w => containsSub t w)

/-- `_classify_type` (summaryflow_v3.py lines 436-448). -/
def classify_type (text : Str) : Str :=
  let t := strLower text
  if containsAny t [strL "meeting", strL "meet", strL "appointment", strL "call",
      strL "schedule", strL "reschedule", strL "cancel", strL "talk", strL "chat"] then
    strL "meeting"
  else if containsAny t [strL "reminder", strL "don't forget", strL "dont forget",
      strL "remember", strL "due", strL "deadline", strL "by eod", strL "eod", strL "by "] then
    strL "reminder"
  else if containsAny t [strL "fyi", strL "for your information", strL "note",
      strL "heads up", strL "update"] then
    strL "note"
  else if containsAny t [strL "task", strL "todo", strL "action item", strL "assign",
      strL "please", strL "can you", strL "could you"] then
    strL "task"
  else if containsAny t [strL "question", strL "?", strL "ask", strL "clarify",
      strL "who", strL "what", strL "when", strL "where", strL "how", strL "why"] then
    strL "question"
  else strL "message"

/-- `_classify_intent` (summaryflow_v3.py lines 451-477). -/
def classify_intent (text : Str) (msg_type : Str) : Str :=
  let t := strLower text
  if msg_type = strL "meeting" then
    if containsSub t (strL "confirm") || containsSub t (strL "confirmation") then
      strL "confirm_meeting"
    else if containsSub t (strL "schedule") || containsSub t (strL "set up")
        || containsSub t (strL "book") then
      strL "schedule_meeting"
    else if containsSub t (strL "reschedule") || containsSub t (strL "move")
        || containsSub t (strL "postpone") then
      strL "reschedule_meeting"
    else if containsSub t (strL "cancel") then
      strL "cancel_meeting"
    else strL "inform_meeting"
  else if msg_type = strL "reminder" || containsAny t [strL "reminder", strL "don't forget",
      strL "dont forget", strL "remember", strL "due", strL "deadline", strL "by eod",
      strL "eod"] then
    strL "reminder"
  else if msg_type = strL "note" then
    strL "informational"
  else if containsAny t [strL "urgent", strL "asap", strL "immediately",
      strL "high priority", strL "priority"] then
    strL "urgent_request"
  else if containsAny t [strL "can you", strL "please", strL "could you", strL "send",
      strL "share", strL "help", strL "assign", strL "finish", strL "complete"] then
    strL "request"
  else if containsAny t [strL "update", strL "any update", strL "follow up",
      strL "follow-up", strL "status"] then
    strL "follow_up"
  else if containsAny t [strL "question", strL "?", strL "how", strL "what",
      strL "why", strL "when", strL "where"] then
    strL "question"
  else strL "informational"

/-- `t.count("!")`. -/
def countBangs (t : Str) : Nat :=
  (t.filter (fun c => c = '!')).length

/-- `_classify_urgency` (summaryflow_v3.py lines 480-498).  The comparisons
`hours <= 6` / `hours <= 48` on `delta.total_seconds() / 3600.0` are modelled
as the equivalent integer comparisons on whole seconds (both datetimes carry
whole seconds, so the float comparison agrees). -/
def classify_urgency (text : Str) (target_dt : Option PyDateTime) (anchor : PyDateTime) : Str :=
  let t := strLower text
  if containsAny t [strL "emergency", strL "critical", strL "urgent", strL "asap",
      strL "immediately", strL "high priority", strL "priority"] then
    strL "high"
  else if 3 ≤ countBangs t then
    strL "high"
  else
    match target_dt with
    | some dt =>
      if deltaSeconds dt anchor ≤ 6 * 3600 then strL "high"
      else if deltaSeconds dt anchor ≤ 48 * 3600 then strL "medium"
      else strL "low"
    | none =>
      if containsAny t [strL "soon", strL "tomorrow", strL "today", strL "eod",
          strL "end of day", strL "tonight"] then
        strL "medium"
      else strL "low"

/-- `_map_type_to_api_intent` (summaryflow_v4.py lines 89-99). -/
def map_type_to_api_intent (msg_type : Str) : Str :=
  let t := strLower msg_type
  if t = strL "meeting" then strL "meeting"
  else if t = strL "reminder" then strL "reminder"
  else if t = strL "question" then strL "question"
  else if t = strL "task" then strL "task"
  else strL "note"

/-- `_detect_device_context` (summaryflow_v4.py lines 102-114): first-match
case-insensitive substring scan over the raw text (the `platform` argument is
unused by the source function and kept for signature fidelity). -/
def detect_device_context (platform raw_text : Str) : Str :=
  let _ := platform
  let t := strLower raw_text
  if containsSub t (strL "sent from my iphone") || containsSub t (strL "ios") then
    strL "ios"
  else if containsSub t (strL "sent from my android") || containsSub t (strL "android") then
    strL "android"
  else if containsSub t (strL "windows") then
    strL "windows"
  else if containsSub t (strL "mac os x") || containsSub t (strL "macos")
      || containsSub t (strL "mac") then
    strL "macos"
  else if containsSub t (strL "web") || containsSub t (strL "via web") then
    strL "web"
  else strL "unknown"

/-! ### `_extract_datetime` (summaryflow_v3.py lines 364-432)

The regular expressions used by the source are modelled by hand-rolled
scanners implementing Python `re.search` semantics (leftmost match, ordered
alternation, greedy/optional groups with backtracking) for exactly the
patterns that appear in the source. -/

/-- `\b` between a (consumed) word character and the remaining input: holds
when the input is exhausted or continues with a non-word character. -/
def bAfterWord (rest : Str) : Bool :=
  match rest with
  | [] => true
  | c :: _ => !wordChar c

/-- The `weekdays` list of `_extract_datetime`. -/
def weekdaysList : List Str :=
  [strL "monday", strL "tuesday", strL "wednesday", strL "thursday",
   strL "friday", strL "saturday", strL "sunday"]

/-- The weekday loop of `_extract_datetime`: the first list index whose
weekday name occurs in the lower-cased text. -/
def findWeekdayIdx (text_lower : Str) : Option Nat :=
  weekdaysList.findIdx? (fun wd => containsSub text_lower wd)

/-- `diff = (target_idx - current_idx) % 7; if diff == 0: diff = 7`. -/
def weekdayDiff (target current : Int) : Int :=
  let diff := (target - current) % 7
  if diff = 0 then 7 else diff

/-- The `day_offset` computed by the first half of `_extract_datetime`:
"tomorrow"/"today" set it to 1/0, and a weekday name overrides it with the
distance to the next occurrence of that weekday. -/
def day_offset_of (text_lower : Str) (anchor : PyDateTime) : Int :=
  let base : Int :=
    if containsSub text_lower (strL "tomorrow") then 1
    else if containsSub text_lower (strL "today") then 0
    else 0
  match findWeekdayIdx text_lower with
  | some i => weekdayDiff i (pyWeekday anchor.days)
  | none => base

/-- The `default_times` mapping of `_extract_datetime`, in its (insertion)
iteration order. -/
def default_times : List (Str × Nat × Nat) :=
  [(strL "morning", 9, 0), (strL "afternoon", 15, 0), (strL "evening", 18, 0),
   (strL "tonight", 20, 0), (strL "eod", 17, 0), (strL "end of day", 17, 0)]

/-- The `default_times` loop: first key contained in the lower-cased text. -/
def firstDefaultTime (text_lower : Str) : Option (Nat × Nat) :=
  (default_times.find? (fun p => containsSub text_lower p.1)).map Prod.snd

/-- Unit alternatives of the relative-offset pattern, in alternation order. -/
def relUnitsList : List Str :=
  [strL "minutes", strL "minute", strL "hours", strL "hour", strL "days", strL "day"]

/-- Attempt `in\s+(\d+)\s+(unit)\b` at the start of `s` (the leading `\b` is
the caller's responsibility). -/
def relMatchHere (s : Str) : Option (Nat × Str) :=
  if strStarts (strL "in") s then
    let r1 := s.drop 2
    if (r1.takeWhile pyIsSpace).isEmpty then none
    else
      let r2 := r1.dropWhile pyIsSpace
      let ds := r2.takeWhile Char.isDigit
      if ds.isEmpty then none
      else
        let r3 := r2.dropWhile Char.isDigit
        if (r3.takeWhile pyIsSpace).isEmpty then none
        else
          let r4 := r3.dropWhile pyIsSpace
          match relUnitsList.find? (fun u => strStarts u r4 && bAfterWord (r4.drop u.length)) with
          | some u => some (natOfDigits ds, u)
          | none => none
  else none

/-- `re.search(r"\bin\s+(\d+)\s+(minutes|minute|hours|hour|days|day)\b", t)`:
leftmost match; `prevWord` tracks whether the previous character is a word
character (for `\b`). -/
def relScan (prevWord : Bool) : Str → Option (Nat × Str)
  | [] => none
  | c :: t =>
    if !prevWord then
      match relMatchHere (c :: t) with
      | some r => some r
      | none => relScan (wordChar c) t
    else relScan (wordChar c) t

def relSearch (text_lower : Str) : Option (Nat × Str) :=
  relScan false text_lower

/-- A match of `\b(\d{1,2})(?::(\d{2}))?\s*(am|pm|AM|PM)?\b`: the three
captured groups. -/
structure TimeMatch where
  hourDigits : Str
  minuteDigits : Option Str
  ampm : Option Str
deriving Repr, DecidableEq

/-- `\s*(am|pm|AM|PM)?\b` after the digit groups (the last consumed character
is a digit).  `\s*` is greedy; the optional am/pm group is tried first at the
full whitespace run; with the group absent, `\b` can hold either after the
full run (next char a word char) or with the run given back entirely (next
char after the digits a non-word char or the end). -/
def timeTail (rest : Str) : Option (Option Str) :=
  let aw := rest.dropWhile pyIsSpace
  match ([strL "am", strL "pm", strL "AM", strL "PM"]).find?
      (fun a => strStarts a aw && bAfterWord (aw.drop 2)) with
  | some a => some (some a)
  | none =>
    if !(rest.takeWhile pyIsSpace).isEmpty
        && (match aw with | c :: _ => wordChar c | [] => false) then
      some none
    else if (match rest with | [] => true | c :: _ => !wordChar c) then
      some none
    else none

/-- `(?::(\d{2}))?\s*(am|pm|AM|PM)?\b` after the hour digits `hd`: the
optional colon group is greedy (tried first). -/
def timeWithDigits (hd : Str) (rest : Str) : Option TimeMatch :=
  let withColon : Option TimeMatch :=
    match rest with
    | ':' :: m1 :: m2 :: rest2 =>
      if m1.isDigit && m2.isDigit then
        (timeTail rest2).map (fun ap => ⟨hd, some [m1, m2], ap⟩)
      else none
    | _ => none
  match withColon with
  | some m => some m
  | none => (timeTail rest).map (fun ap => ⟨hd, none, ap⟩)

/-- `(\d{1,2})...` at the start of `s`: two digits preferred (greedy), one as
fallback. -/
def timeMatchHere (s : Str) : Option TimeMatch :=
  match s with
  | d1 :: rest1 =>
    if d1.isDigit then
      let try2 : Option TimeMatch :=
        match rest1 with
        | d2 :: rest2 => if d2.isDigit then timeWithDigits [d1, d2] rest2 else none
        | [] => none
      match try2 with
      | some m => some m
      | none => timeWithDigits [d1] rest1
    else none
  | [] => none

/-- `re.search(r"\b(\d{1,2})(?::(\d{2}))?\s*(am|pm|AM|PM)?\b", text)`. -/
def timeScan (prevWord : Bool) : Str → Option TimeMatch
  | [] => none
  | c :: t =>
    if !prevWord then
      match timeMatchHere (c :: t) with
      | some m => some m
      | none => timeScan (wordChar c) t
    else timeScan (wordChar c) t

def timeSearch (text : Str) : Option TimeMatch :=
  timeScan false text

/-- `\b(\d{4})-(\d{2})-(\d{2})\b` at the start of `s`. -/
def isoMatchHere (s : Str) : Option (Nat × Nat × Nat) :=
  match s with
  | y1 :: y2 :: y3 :: y4 :: '-' :: m1 :: m2 :: '-' :: d1 :: d2 :: rest =>
    if y1.isDigit && y2.isDigit && y3.isDigit && y4.isDigit && m1.isDigit && m2.isDigit
        && d1.isDigit && d2.isDigit && bAfterWord rest then
      some (natOfDigits [y1, y2, y3, y4], natOfDigits [m1, m2], natOfDigits [d1, d2])
    else none
  | _ => none

def isoScan (prevWord : Bool) : Str → Option (Nat × Nat × Nat)
  | [] => none
  | c :: t =>
    if !prevWord then
      match isoMatchHere (c :: t) with
      | some m => some m
      | none => isoScan (wordChar c) t
    else isoScan (wordChar c) t

def isoSearch (text : Str) : Option (Nat × Nat × Nat) :=
  isoScan false text

/-- The month-abbreviation table of `_extract_datetime`. -/
def monthsTable : List (Str × Nat) :=
  [(strL "Jan", 1), (strL "Feb", 2), (strL "Mar", 3), (strL "Apr", 4),
   (strL "May", 5), (strL "Jun", 6), (strL "Jul", 7), (strL "Aug", 8),
   (strL "Sep", 9), (strL "Oct", 10), (strL "Nov", 11), (strL "Dec", 12)]

/-- `\b(Jan|...|Dec)\s+(\d{1,2})\b` at the start of `s`. -/
def monthDayMatchHere (s : Str) : Option (Nat × Nat) :=
  match monthsTable.find? (fun p => strStarts p.1 s) with
  | some (mname, mnum) =>
    let r1 := s.drop mname.length
    if (r1.takeWhile pyIsSpace).isEmpty then none
    else
      let r2 := r1.dropWhile pyIsSpace
      match r2 with
      | d1 :: rest1 =>
        if d1.isDigit then
          let try2 : Option Nat :=
            match rest1 with
            | d2 :: rest2 =>
              if d2.isDigit && bAfterWord rest2 then some (natOfDigits [d1, d2]) else none
            | [] => none
          match try2 with
          | some d => some (mnum, d)
          | none => if bAfterWord rest1 then some (mnum, natOfDigits [d1]) else none
        else none
      | [] => none
  | none => none

def monthDayScan (prevWord : Bool) : Str → Option (Nat × Nat)
  | [] => none
  | c :: t =>
    if !prevWord then
      match monthDayMatchHere (c :: t) with
      | some m => some m
      | none => monthDayScan (wordChar c) t
    else monthDayScan (wordChar c) t

def monthDaySearch (text : Str) : Option (Nat × Nat) :=
  monthDayScan false text

/-- `_extract_datetime` (summaryflow_v3.py lines 364-432).  An uncaught
`ValueError` from a `datetime(...)` construction is `.error ()`. -/
def extract_datetime (text : Str) (anchor : PyDateTime) : Except Unit (Option PyDateTime) :=
  let text_lower := strLower text
  let day_offset := day_offset_of text_lower anchor
  match firstDefaultTime text_lower with
  | some (h, m) => (pyDatetimeOnDay (anchor.days + day_offset) h m).map some
  | none =>
    match relSearch text_lower with
    | some (val, unit) =>
      if strStarts (strL "minute") unit then .ok (some (anchor.addSeconds (val * 60)))
      else if strStarts (strL "hour") unit then .ok (some (anchor.addSeconds (val * 3600)))
      else .ok (some (anchor.addSeconds (val * 86400)))
    | none =>
      match timeSearch text with
      | none =>
        match isoSearch text with
        | some (y, mo, d) => (pyDatetime y mo d 0 0).map some
        | none =>
          match monthDaySearch text with
          | some (mo, d) => (pyDatetime (civilFromDays anchor.days).1 mo d 0 0).map some
          | none => .ok none
      | some tm =>
        let hour0 := natOfDigits tm.hourDigits
        let minute := match tm.minuteDigits with | some md => natOfDigits md | none => 0
        let hour :=
          match tm.ampm with
          | some ap =>
            if strLower ap = strL "pm" && hour0 ≠ 12 then hour0 + 12
            else if strLower ap = strL "am" && hour0 = 12 then 0
            else hour0
          | none => hour0
        (pyDatetimeOnDay (anchor.days + day_offset) hour minute).map some

/-! ### `_extract_people` (summaryflow_v3.py lines 329-361) -/

/-- `[A-Z][a-z]+` at the start of `s`: one ASCII uppercase letter followed by
a maximal nonempty run of ASCII lowercase letters. -/
def capWord : Str → Option (Str × Str)
  | c :: t =>
    if c.isUpper then
      let low := t.takeWhile Char.isLower
      if low.isEmpty then none else some (c :: low, t.dropWhile Char.isLower)
    else none
  | [] => none

/-- Greedy `(?:\s+[A-Z][a-z]+)*` extension of a captured name; the capture
keeps the whitespace exactly as matched.  Fuel-bounded (the initial fuel is
the remaining input length, which bounds the iteration count). -/
def capSeqExt : Nat → Str → Str → Str × Str
  | 0, acc, rest => (acc, rest)
  | fuel + 1, acc, rest =>
    let ws := rest.takeWhile pyIsSpace
    if ws.isEmpty then (acc, rest)
    else
      match capWord (rest.dropWhile pyIsSpace) with
      | some (w, r2) => capSeqExt fuel (acc ++ ws ++ w) r2
      | none => (acc, rest)

/-- The role/preposition cues of the first `_extract_people` pass, in
alternation order (their first letters are distinct, so at most one can match
at a given position). -/
def cueList : List Str :=
  [strL "with", strL "from", strL "to", strL "cc", strL "attn"]

/-- `(?:with|from|to|cc|attn)\s+([A-Z][a-z]+(?:\s+[A-Z][a-z]+)*)` at the start
of `s` (leading `\b` checked by the caller): returns the captured group and
the remaining input. -/
def cueMatchHere (s : Str) : Option (Str × Str) :=
  match cueList.find? (fun k => strStarts k s) with
  | some k =>
    let r1 := s.drop k.length
    if (r1.takeWhile pyIsSpace).isEmpty then none
    else
      match capWord (r1.dropWhile pyIsSpace) with
      | some (w, r2) => some (capSeqExt r2.length w r2)
      | none => none
  | none => none

/-- `re.finditer` driver for the cue pattern: leftmost, non-overlapping. -/
def cueScan : Nat → Bool → Str → List Str
  | 0, _, _ => []
  | _, _, [] => []
  | fuel + 1, prevWord, c :: t =>
    if !prevWord then
      match cueMatchHere (c :: t) with
      | some (name, rest) => name :: cueScan fuel true rest
      | none => cueScan fuel (wordChar c) t
    else cueScan fuel (wordChar c) t

/-- The honorifics of the second `_extract_people` pass, in alternation order
(mutually non-prefixing, so at most one can match at a position). -/
def honorificList : List Str :=
  [strL "Mr.", strL "Mrs.", strL "Ms.", strL "Dr."]

/-- `(?:Mr\.|Mrs\.|Ms\.|Dr\.)\s+([A-Z][a-z]+(?:\s+[A-Z][a-z]+)*)` at the
start of `s`. -/
def honMatchHere (s : Str) : Option (Str × Str) :=
  match honorificList.find? (fun k => strStarts k s) with
  | some k =>
    let r1 := s.drop k.length
    if (r1.takeWhile pyIsSpace).isEmpty then none
    else
      match capWord (r1.dropWhile pyIsSpace) with
      | some (w, r2) => some (capSeqExt r2.length w r2)
      | none => none
  | none => none

def honScan : Nat → Bool → Str → List Str
  | 0, _, _ => []
  | _, _, [] => []
  | fuel + 1, prevWord, c :: t =>
    if !prevWord then
      match honMatchHere (c :: t) with
      | some (name, rest) => name :: honScan fuel true rest
      | none => honScan fuel (wordChar c) t
    else honScan fuel (wordChar c) t

/-- `\b([A-Z][a-z]+)\b` at the start of `s`: a capitalized word whose maximal
lowercase run is followed by a non-word character or the end (shorter runs
can never satisfy the trailing `\b`, so no backtracking is needed). -/
def singleCapHere (s : Str) : Option (Str × Str) :=
  match capWord s with
  | some (w, rest) => if bAfterWord rest then some (w, rest) else none
  | none => none

/-- `re.findall(r"\b([A-Z][a-z]+)\b", s)`. -/
def singleCapScan : Nat → Bool → Str → List Str
  | 0, _, _ => []
  | _, _, [] => []
  | fuel + 1, prevWord, c :: t =>
    if !prevWord then
      match singleCapHere (c :: t) with
      | some (w, rest) => w :: singleCapScan fuel true rest
      | none => singleCapScan fuel (wordChar c) t
    else singleCapScan fuel (wordChar c) t

/-- Text after the first occurrence of `sep` (`s.split(sep, 1)[1]`); the
callers only use it when `sep` occurs. -/
def dropThroughFirst (sep : Str) : Str → Str
  | [] => []
  | c :: t =>
    if strStarts sep (c :: t) then (c :: t).drop sep.length
    else dropThroughFirst sep t

/-- `re.sub(r"^(\s*Reminder\b[\s:\-–—]*)", "", s)`: strip a leading
"Reminder" (case-sensitive, word-bounded) with surrounding filler. -/
def stripReminderPrefix (s : Str) : Str :=
  let r1 := s.dropWhile pyIsSpace
  if strStarts (strL "Reminder") r1 then
    let r2 := r1.drop 8
    if bAfterWord r2 then
      r2.dropWhile (fun c => pyIsSpace c || c = ':' || c = '-' || c = '–' || c = '—')
    else s
  else s

/-- The stop-word set of `_extract_people` (used both for token filtering and
the final list comprehension). -/
def peopleStop : List Str :=
  [strL "hey", strL "please", strL "confirm", strL "tomorrow", strL "meeting",
   strL "pm", strL "am", strL "hello", strL "update", strL "subject", strL "let",
   strL "thanks", strL "regards", strL "reminder"]

/-- `if name and name not in people: people.append(name)`. -/
def addName (people : List Str) (name : Str) : List Str :=
  if !name.isEmpty && !people.contains name then people ++ [name] else people

/-- `_extract_people` (summaryflow_v3.py lines 329-361). -/
def extract_people (text : Str) : List Str :=
  let people1 := (cueScan (text.length + 1) false text).foldl
    (fun ps n => addName ps (pyStrip n)) []
  let people2 := (honScan (text.length + 1) false text).foldl
    (fun ps n => addName ps n) people1
  let tokens_text :=
    if containsSub text (strL "—") then dropThroughFirst (strL "—") text
    else if containsSub text (strL " - ") then dropThroughFirst (strL " - ") text
    else text
  let tokens_text :=
    if strStarts (strL "subject:") (strLower tokens_text) then
      dropThroughFirst (strL ":") tokens_text
    else tokens_text
  let tokens_text := stripReminderPrefix tokens_text
  let people3 := (singleCapScan (tokens_text.length + 1) false tokens_text).foldl
    (fun ps tok =>
      if peopleStop.contains (strLower tok) then ps
      else if ps.contains tok then ps
      else ps ++ [tok]) people2
  people3.filter (fun p => !peopleStop.contains (strLower p))

/-! ### Platform preprocessing (`summaryflow_v3.py` lines 210-304) -/

/-- Trailing-whitespace strip (for `\s*$` in line-anchored patterns). -/
def stripTrailWS (s : Str) : Str :=
  (s.reverse.dropWhile pyIsSpace).reverse

/-- `str.endswith` / anchored suffix literal. -/
def endsWithStr (suf s : Str) : Bool :=
  strStarts suf.reverse s.reverse

/-- `re.match(r"^On .+ wrote:\s*$", line)` (case-sensitive): the line is
`"On "` + at least one character + `" wrote:"` + optional trailing
whitespace. -/
def isOnWroteLine (l : Str) : Bool :=
  let core := stripTrailWS l
  strStarts (strL "On ") core && endsWithStr (strL " wrote:") core && 11 ≤ core.length

/-- The same pattern with `re.IGNORECASE`. -/
def isOnWroteLineCI (l : Str) : Bool :=
  let core := stripTrailWS (strLower l)
  strStarts (strL "on ") core && endsWithStr (strL " wrote:") core && 11 ≤ core.length

/-- `signature_markers` of `_email_clean` (a set; only membership of
`startswith` matters). -/
def signatureMarkers : List Str :=
  [strL "--", strL "__", strL "Sent from my iPhone", strL "Sent from my Android",
   strL "Regards", strL "Best", strL "Thanks"]

/-- `forwarded_markers` of `_email_clean`. -/
def forwardedMarkers : List Str :=
  [strL "Forwarded message", strL "Begin forwarded message",
   strL "-----Original Message-----", strL "----- Forwarded Message -----",
   strL "From:", strL "Sent:", strL "To:"]

/-- The subject captured from a `Subject:` line:
`lstr.split(":", 1)[1].strip() if ":" in lstr else lstr`. -/
def subjectOf (lstr : Str) : Str :=
  if containsSub lstr (strL ":") then pyStrip (dropThroughFirst (strL ":") lstr)
  else lstr

/-- The line loop of `_email_clean` (summaryflow_v3.py lines 253-270):
returns the captured subject and the kept (stripped) lines, in order.  Note
that the `Subject:` check precedes the signature test, so a late subject line
is still consumed; the signature flag is never reset. -/
def emailLoop (sig : Bool) (subject : Option Str) : List Str → Option Str × List Str
  | [] => (subject, [])
  | line :: rest =>
    let lstr := pyStrip line
    if lstr.isEmpty then emailLoop sig subject rest
    else if strStarts (strL "subject:") (strLower lstr) && subject.isNone then
      emailLoop sig (some (subjectOf lstr)) rest
    else if strStarts (strL ">") lstr then emailLoop sig subject rest
    else if forwardedMarkers.any (fun m => strStarts m lstr) then emailLoop sig subject rest
    else if isOnWroteLineCI lstr then emailLoop sig subject rest
    else
      let sig2 := sig || signatureMarkers.any (fun m => strStarts m lstr)
      if sig2 then emailLoop sig2 subject rest
      else
        let r := emailLoop sig2 subject rest
        (r.1, lstr :: r.2)

/-- `\b` between the consumed text (whose last character's word-ness is
`lastWord`) and the remaining input (end of input counts as non-word). -/
def bBetween (lastWord : Bool) (rest : Str) : Bool :=
  lastWord != (match rest with | c :: _ => wordChar c | [] => false)

/-- `re.sub(r"(?i)\b<phrase>\b.*", "", s)` for a literal `phrase` (given
lower-cased; `lastWord` is the word-ness of its final character): the body
has no newline, so `.*` runs to the end and the substitution truncates at the
leftmost boundary-delimited, case-insensitive occurrence. -/
def truncCIPhrase (phrase : Str) (lastWord : Bool) (s : Str) : Str :=
  go false s
where
  go (prevWord : Bool) : Str → Str
  | [] => []
  | c :: t =>
    if !prevWord && strStarts phrase (strLower (c :: t))
        && bBetween lastWord ((c :: t).drop phrase.length) then []
    else c :: go (wordChar c) t

/-- `re.sub(r"(?i)\bOn .+ wrote:\b", "", s)`: leftmost boundary-delimited
case-insensitive `"on "`, with the greedy `.+` extending to the *last*
`" wrote:"` that is followed by a word character (`:` is a non-word
character, so the trailing `\b` needs a word character after it); no match
leaves `s` unchanged. -/
def subOnWroteBody (s : Str) : Str :=
  match findOn false s 0 with
  | none => s
  | some i =>
    match lastWroteEnd (s.drop (i + 3)) 0 none with
    | none => s
    | some e => s.take i ++ s.drop (i + 3 + e)
where
  findOn (prevWord : Bool) : Str → Nat → Option Nat
  | [], _ => none
  | c :: t, i =>
    if !prevWord && strStarts (strL "on ") (strLower (c :: t)) then some i
    else findOn (wordChar c) t (i + 1)
  lastWroteEnd : Str → Nat → Option Nat → Option Nat
  | [], _, best => best
  | c :: t, i, best =>
    if 1 ≤ i && strStarts (strL " wrote:") (strLower (c :: t))
        && (match (c :: t).drop 7 with | d :: _ => wordChar d | [] => false) then
      lastWroteEnd t (i + 1) (some (i + 7))
    else lastWroteEnd t (i + 1) best

/-- `re.sub(r"\s>[^\n]*", "", s)` on a newline-free body: truncate at the
leftmost whitespace character directly followed by `>`. -/
def subSpaceQuote : Str → Str
  | [] => []
  | c :: t =>
    if pyIsSpace c && (match t with | '>' :: _ => true | _ => false) then []
    else c :: subSpaceQuote t

/-- `_email_clean` (summaryflow_v3.py lines 244-284) from the line list
(everything after the `text.splitlines()` call).  An empty captured subject
is falsy in Python, hence the emptiness test before the
`"<subject> — <body>"` assembly. -/
def emailCleanLines (lines : List Str) : Str :=
  let r := emailLoop false none lines
  let body := joinWith (strL " ") r.2
  let body := normalize_spacing body
  let body := truncCIPhrase (strL "begin forwarded message") true body
  let body := truncCIPhrase (strL "forwarded message") true body
  let body := subOnWroteBody body
  let body := truncCIPhrase (strL "from:") false body
  let body := truncCIPhrase (strL "sent:") false body
  let body := truncCIPhrase (strL "to:") false body
  let body := subSpaceQuote body
  let body := normalize_spacing body
  match r.1 with
  | some subj =>
    if subj.isEmpty then body
    else if body.isEmpty then subj
    else subj ++ strL " — " ++ body
  | none => body

/-- `_email_clean` (summaryflow_v3.py lines 244-284). -/
def email_clean (text : Str) : Str :=
  emailCleanLines (splitLines text)

/-- The emoji character classes of `_strip_emojis` (summaryflow_v3.py line
222-223). -/
def emojiRange (c : Char) : Bool :=
  let n := c.toNat
  (0x1F600 ≤ n && n ≤ 0x1F64F) || (0x1F300 ≤ n && n ≤ 0x1F5FF) ||
  (0x1F680 ≤ n && n ≤ 0x1F6FF) || (0x1F1E6 ≤ n && n ≤ 0x1F1FF) ||
  (0x2702 ≤ n && n ≤ 0x27B0) || (0x24C2 ≤ n && n ≤ 0x1F251)

/-- `_strip_emojis` (summaryflow_v3.py lines 222-223). -/
def strip_emojis (text : Str) : Str :=
  text.filter (fun c => !emojiRange c)

/-- `re.sub(r"(.)\1{2,}", r"\1\1", text)`: any character (except newline,
which `.` does not match) repeated three or more times collapses to two. -/
def collapseRuns2 : Str → Str
  | c :: d :: e :: t =>
    if c = d && d = e && c ≠ '\n' then collapseRuns2 (d :: e :: t)
    else c :: collapseRuns2 (d :: e :: t)
  | s => s

/-- Consecutive-duplicate token removal of `_remove_duplicates` /
`detect_repeated_text`. -/
def dedupConsecutive : List Str → List Str
  | [] => []
  | x :: xs => x :: go x xs
where
  go (prev : Str) : List Str → List Str
  | [] => []
  | y :: ys => if y = prev then go prev ys else y :: go y ys

/-- `_remove_duplicates` (summaryflow_v3.py lines 226-237): collapse repeated
characters, then drop consecutive duplicate words (`text` is returned as-is
when it has no tokens). -/
def remove_duplicates (text : Str) : Str :=
  let text := collapseRuns2 text
  match pySplit text with
  | [] => text
  | x :: xs => joinWith (strL " ") (dedupConsecutive (x :: xs))

/-! ### Reply detection and Instagram cleaning

The pattern `\b(replying to|replied to)\b[:\s]*([\"']?)(.+?)\2(\.|!|\?|$)`
(IGNORECASE) is shared by `_instagram_clean` (summaryflow_v3.py) and
`detect_reply_chains` (context_cleaner_v4.py).  Only group 3 is consumed by
the callers.  Backtracking order: `[:\s]*` is greedy (longest run first), the
optional quote is tried before the empty alternative, and `(.+?)` is lazy
(shortest nonempty body first); `.` does not match a newline. -/

/-- Lazy body scan for the quoted branch: stop at the first point (after at
least one consumed character) where the back-referenced quote `q` is followed
by `.`, `!`, `?` or the end. -/
def replyBodyQ (q : Char) (acc : Str) : Str → Option Str
  | [] => none
  | c :: t =>
    if !acc.isEmpty && c = q &&
        (match t with | [] => true | d :: _ => d = '.' || d = '!' || d = '?') then
      some acc.reverse
    else if c = '\n' then none
    else replyBodyQ q (c :: acc) t

/-- Lazy body scan for the unquoted branch (the empty back-reference matches
everywhere): stop at the first `.`, `!`, `?` or the end after at least one
consumed character. -/
def replyBodyNQ (acc : Str) : Str → Option Str
  | [] => if acc.isEmpty then none else some acc.reverse
  | c :: t =>
    if !acc.isEmpty && (c = '.' || c = '!' || c = '?') then some acc.reverse
    else if c = '\n' then none
    else replyBodyNQ (c :: acc) t

/-- One attempt of `([\"']?)(.+?)\2(\.|!|\?|$)` at `rk`: quote branch first. -/
def replyTryAt (rk : Str) : Option Str :=
  let quoted : Option Str :=
    match rk with
    | q :: t => if q = '"' || q = '\'' then replyBodyQ q [] t else none
    | [] => none
  match quoted with
  | some b => some b
  | none => replyBodyNQ [] rk

/-- `[:\s]*` give-back loop: try consuming `k` class characters, longest
first. -/
def replyKs : Nat → Str → Option Str
  | 0, rest => replyTryAt rest
  | k + 1, rest =>
    match replyTryAt (rest.drop (k + 1)) with
    | some b => some b
    | none => replyKs k rest

/-- The tail of the reply pattern after the keyword and its `\b`. -/
def replyTail (rest : Str) : Option Str :=
  replyKs (rest.takeWhile (fun c => pyIsSpace c || c = ':')).length rest

/-- The keyword alternation (case-insensitive, word-bounded) at the start of
`s`; the two keywords differ at their sixth character, so at most one
matches. -/
def replyMatchHere (s : Str) : Option Str :=
  match ([strL "replying to", strL "replied to"]).find?
      (fun k => strStarts k (strLower s) && bAfterWord (s.drop k.length)) with
  | some k => replyTail (s.drop k.length)
  | none => none

def replyScan : Nat → Bool → Str → Option Str
  | 0, _, _ => none
  | _, _, [] => none
  | fuel + 1, prevWord, c :: t =>
    if !prevWord then
      match replyMatchHere (c :: t) with
      | some b => some b
      | none => replyScan fuel (wordChar c) t
    else replyScan fuel (wordChar c) t

/-- Group 3 of the leftmost reply-pattern match, if any. -/
def replySearchG3 (text : Str) : Option Str :=
  replyScan (text.length + 1) false text

/-- `re.sub(r"https?://\S+", "", text)`: drop every scheme-prefixed URL
(the `\S+` must be nonempty). -/
def stripUrls : Nat → Str → Str
  | 0, s => s
  | _, [] => []
  | fuel + 1, c :: t =>
    if strStarts (strL "http://") (c :: t) || strStarts (strL "https://") (c :: t) then
      let pre := if strStarts (strL "https://") (c :: t) then 8 else 7
      let r := (c :: t).drop pre
      let ns := r.takeWhile (fun x => !pyIsSpace x)
      if ns.isEmpty then c :: stripUrls fuel t
      else stripUrls fuel (r.drop ns.length)
    else c :: stripUrls fuel t

/-- `re.sub(r"www\.\S+", "", text)`. -/
def stripWww : Nat → Str → Str
  | 0, s => s
  | _, [] => []
  | fuel + 1, c :: t =>
    if strStarts (strL "www.") (c :: t) then
      let r := (c :: t).drop 4
      let ns := r.takeWhile (fun x => !pyIsSpace x)
      if ns.isEmpty then c :: stripWww fuel t
      else stripWww fuel (r.drop ns.length)
    else c :: stripWww fuel t

/-- `re.sub(r"#[\w_]+", "", text)`. -/
def stripHashtags : Nat → Str → Str
  | 0, s => s
  | _, [] => []
  | fuel + 1, c :: t =>
    if c = '#' then
      let ws := t.takeWhile wordChar
      if ws.isEmpty then c :: stripHashtags fuel t
      else stripHashtags fuel (t.drop ws.length)
    else c :: stripHashtags fuel t

/-- `_instagram_clean` (summaryflow_v3.py lines 287-304). -/
def instagram_clean (text : Str) : Str :=
  let text := stripUrls (text.length + 1) text
  let text := stripWww (text.length + 1) text
  let text := stripHashtags (text.length + 1) text
  let reply_context := (replySearchG3 text).map pyStrip
  let text := normalize_spacing text
  match reply_context with
  | some rc =>
    if !rc.isEmpty && !containsSub text rc then
      strL "In reply to: " ++ rc ++ strL ". " ++ text
    else text
  | none => text

/-- `_preprocess_text` (summaryflow_v3.py lines 211-219). -/
def preprocess_text (platform text : Str) : Str :=
  let p := strLower platform
  if p = strL "whatsapp" then
    normalize_spacing (remove_duplicates (strip_emojis text))
  else if p = strL "email" then
    email_clean text
  else if p = strL "instagram" || p = strL "instagram dm" || p = strL "ig"
      || p = strL "insta" then
    instagram_clean text
  else normalize_spacing text

/-! ### `context_cleaner_v4.py` -/

/-- `normalize_emojis` (context_cleaner_v4.py lines 7-8): models
`emoji.demojize(text, language="en")`, which is the identity on emoji-free
text (every text the claims exercise); the `:name:` replacement of emoji is
outside the model. -/
def normalize_emojis (text : Str) : Str := text

/-- The `markers` tuple of `remove_forwards_quotes`. -/
def rfqMarkers : List Str :=
  [strL "Forwarded message", strL "Begin forwarded message",
   strL "-----Original Message-----", strL "----- Forwarded Message -----",
   strL "From:", strL "Sent:", strL "To:"]

/-- The line loop of `remove_forwards_quotes` (context_cleaner_v4.py lines
24-40); the final `if skip and s: continue` of the source is unreachable and
has no counterpart here. -/
def rfqLoop (skip : Bool) : List Str → List Str
  | [] => []
  | l :: rest =>
    let s := pyStrip l
    if skip && s.isEmpty then rfqLoop false rest
    else if skip then rfqLoop true rest
    else if strStarts (strL ">") s then rfqLoop skip rest
    else if isOnWroteLine s then rfqLoop true rest
    else if rfqMarkers.any (fun m => strStarts m s) then rfqLoop skip rest
    else s :: rfqLoop skip rest

/-- `^-----+\s*(Original|Forwarded)\s*Message\s*-----+$` (IGNORECASE) as a
whole-line predicate. -/
def isDashedMarkerLine (l : Str) : Bool :=
  let d1 := l.takeWhile (fun c => c = '-')
  if d1.length < 5 then false
  else
    let r1 := (l.drop d1.length).dropWhile pyIsSpace
    let kwLen : Option Nat :=
      if strStarts (strL "original") (strLower r1) then some 8
      else if strStarts (strL "forwarded") (strLower r1) then some 9
      else none
    match kwLen with
    | none => false
    | some n =>
      let r2 := (r1.drop n).dropWhile pyIsSpace
      if strStarts (strL "message") (strLower r2) then
        let r3 := (r2.drop 7).dropWhile pyIsSpace
        let d2 := r3.takeWhile (fun c => c = '-')
        5 ≤ d2.length && (r3.drop d2.length).isEmpty
      else false

/-- One line under the `(?mi)`-anchored substitutions of
`remove_forwards_quotes` (lines 42-46): a matched line is blanked. -/
def rfqLineSub (l : Str) : Str :=
  if strStarts (strL "begin forwarded message") (strLower l) then []
  else if strStarts (strL "forwarded message") (strLower l) then []
  else if isDashedMarkerLine l then []
  else if isOnWroteLineCI l then []
  else if strStarts (strL ">") l then []
  else l

/-- `re.sub(r"\n+", "\n", x)`. -/
def collapseNl : Str → Str
  | [] => []
  | [c] => [c]
  | c :: d :: t =>
    if c = '\n' && d = '\n' then collapseNl (d :: t)
    else c :: collapseNl (d :: t)

/-- Split on `\n` only (the lines seen by `(?m)^...$`). -/
def splitNl (s : Str) : List Str :=
  go s []
where
  go : Str → Str → List Str
  | [], acc => [acc.reverse]
  | '\n' :: t, acc => acc.reverse :: go t []
  | c :: t, acc => go t (c :: acc)

/-- `remove_forwards_quotes` (context_cleaner_v4.py lines 11-47). -/
def remove_forwards_quotes (text : Str) : Str :=
  let out := rfqLoop false (splitLines text)
  let x := joinWith (strL "\n") out
  let x := joinWith (strL "\n") ((splitNl x).map rfqLineSub)
  pyStrip (collapseNl x)

/-- `detect_reply_chains` (context_cleaner_v4.py lines 50-59): the metadata
pair (`is_reply`, `reply_to`). -/
def detect_reply_chains (text : Str) : Str × Str :=
  match replySearchG3 text with
  | some g3 => (strL "true", pyStrip g3)
  | none =>
    let t := strLower text
    if containsSub t (strL "re:") || containsSub t (strL "fw:") || containsSub t (strL "fwd:") then
      (strL "true", strL "thread")
    else if (splitNl text).any isOnWroteLine then
      (strL "true", strL "quoted")
    else (strL "false", strL "")

/-- `detect_repeated_text` (context_cleaner_v4.py lines 62-72): collapse
repeated `!?.` punctuation to one, repeated characters to two, and drop
consecutive duplicate tokens. -/
def detect_repeated_text (text : Str) : Str :=
  let text := collapsePunct text
  let text := collapseRuns2 text
  match pySplit text with
  | [] => text
  | x :: xs => joinWith (strL " ") (dedupConsecutive (x :: xs))
where
  /-- `re.sub(r"([!?.])\1{1,}", r"\1", text)`. -/
  collapsePunct : Str → Str
  | c :: d :: t =>
    if (c = '!' || c = '?' || c = '.') && c = d then collapsePunct (d :: t)
    else c :: collapsePunct (d :: t)
  | s => s

/-- One character under the `trans` table of `unify_punctuation`
(context_cleaner_v4.py lines 76-86); the sources and targets are disjoint, so
the sequential `str.replace` calls act characterwise. -/
def transChar (c : Char) : Str :=
  if c = '“' || c = '”' then ['"']
  else if c = '‘' || c = '’' then ['\'']
  else if c = '—' || c = '–' then ['-']
  else if c = '…' then strL "..."
  else [c]

/-- `unicodedata.normalize("NFKC", text)`: the identity on the ASCII texts
the claims exercise; compatibility mappings of non-ASCII characters are
outside the model. -/
def nfkcNormalize (text : Str) : Str := text

/-- `unify_punctuation` (context_cleaner_v4.py lines 75-89). -/
def unify_punctuation (text : Str) : Str :=
  let text := (text.map transChar).flatten
  let text := nfkcNormalize text
  normalize_spacing text

/-- `clean_all` (context_cleaner_v4.py lines 92-98). -/
def clean_all (platform text : Str) : Str × (Str × Str) :=
  let _ := platform
  let x := remove_forwards_quotes text
  let x := unify_punctuation x
  let x := normalize_emojis x
  let x := detect_repeated_text x
  (x, detect_reply_chains x)

/-! ### `_build_summary` (summaryflow_v3.py lines 502-575) -/

/-- The `intent_map` of `_build_summary`. -/
def intentMap : List (Str × Str) :=
  [(strL "confirm_meeting", strL "User wants confirmation"),
   (strL "schedule_meeting", strL "User wants to schedule"),
   (strL "reschedule_meeting", strL "User wants to reschedule"),
   (strL "cancel_meeting", strL "User wants to cancel"),
   (strL "inform_meeting", strL "User shares an update"),
   (strL "reminder", strL "User shares a reminder"),
   (strL "urgent_request", strL "User has an urgent request"),
   (strL "request", strL "User requests"),
   (strL "follow_up", strL "User is following up"),
   (strL "question", strL "User asks a question"),
   (strL "informational", strL "User shares information")]

/-- `_build_summary` (summaryflow_v3.py lines 502-575); the `message_text`
argument is unused by the source body and kept for signature fidelity.  When
a meeting has a resolved datetime both the time and the day phrase are set,
so only the two-phrase templates are reachable in that case. -/
def build_summary (message_text : Str) (intent msg_type : Str) (people : List Str)
    (target_dt : Option PyDateTime) (anchor_ts : PyDateTime) : Str :=
  let _ := message_text
  let lead := ((intentMap.find? (fun p => p.1 = intent)).map Prod.snd).getD (strL "User message")
  if msg_type = strL "meeting" then
    let person_phrase :=
      if people.isEmpty then [] else strL " with " ++ joinWith (strL ", ") people
    match target_dt with
    | some dt =>
      let day_diff := dt.days - anchor_ts.days
      let when_phrase :=
        if day_diff = 0 then strL "today"
        else if day_diff = 1 then strL "tomorrow"
        else
          let c := civilFromDays dt.days
          strL "on " ++ padNat 4 c.1.toNat ++ strL "-" ++ padNat 2 c.2.1.toNat ++
            strL "-" ++ padNat 2 c.2.2.toNat
      let hour12 := if dt.hour % 12 = 0 then 12 else dt.hour % 12
      let ampm := if dt.hour < 12 then strL "AM" else strL "PM"
      let time_phrase := natDigits hour12 ++
        (if dt.minute ≠ 0 then strL ":" ++ padNat 2 dt.minute else []) ++
        strL " " ++ ampm
      if intent = strL "confirm_meeting" then
        lead ++ strL " for a " ++ time_phrase ++ strL " meeting" ++ person_phrase ++
          strL " " ++ when_phrase ++ strL "."
      else
        lead ++ strL " about a " ++ time_phrase ++ strL " meeting" ++ person_phrase ++
          strL " " ++ when_phrase ++ strL "."
    | none =>
      if intent = strL "confirm_meeting" then
        lead ++ strL " for a meeting" ++ person_phrase ++ strL "."
      else
        lead ++ strL " about a meeting" ++ person_phrase ++ strL "."
  else lead ++ strL "."

/-! ### Timestamp parsing and identifiers (`summaryflow_v3/v4`) -/

/-- A `strptime` numeric field of one or two digits: possible parses in the
order the compiled pattern tries them (two digits first), each with the
remaining input. -/
def parseField (ok2 ok1 : Nat → Bool) : Str → List (Nat × Str)
  | a :: b :: t =>
    (if a.isDigit && b.isDigit && ok2 (natOfDigits [a, b]) then
      [(natOfDigits [a, b], b :: t |>.drop 1)] else []) ++
    (if a.isDigit && ok1 (natOfDigits [a]) then [(natOfDigits [a], b :: t)] else [])
  | [a] => if a.isDigit && ok1 (natOfDigits [a]) then [(natOfDigits [a], [])] else []
  | [] => []

/-- `datetime.strptime(ts, "%Y-%m-%dT%H:%M:%SZ")` followed by
`.replace(tzinfo=timezone.utc)`: four-digit year, one- or two-digit month /
day / hour / minute / second with `strptime`'s value patterns, a final
literal `Z`, and the `datetime` range validation (`ValueError` gives
`none`). -/
def parseIsoZ (ts : Str) : Option PyDateTime :=
  match ts with
  | y1 :: y2 :: y3 :: y4 :: '-' :: rest =>
    if y1.isDigit && y2.isDigit && y3.isDigit && y4.isDigit then
      let y := natOfDigits [y1, y2, y3, y4]
      (parseField (fun v => 1 ≤ v && v ≤ 12) (fun v => 1 ≤ v && v ≤ 9) rest).findSome?
        (fun mo =>
          match mo.2 with
          | '-' :: r2 =>
            (parseField (fun v => 1 ≤ v && v ≤ 31) (fun v => 1 ≤ v && v ≤ 9) r2).findSome?
              (fun d =>
                match d.2 with
                | 'T' :: r3 =>
                  (parseField (fun v => v ≤ 23) (fun _ => true) r3).findSome?
                    (fun h =>
                      match h.2 with
                      | ':' :: r4 =>
                        (parseField (fun v => v ≤ 59) (fun _ => true) r4).findSome?
                          (fun mi =>
                            match mi.2 with
                            | ':' :: r5 =>
                              (parseField (fun v => v ≤ 59) (fun _ => true) r5).findSome?
                                (fun sec =>
                                  match sec.2 with
                                  | ['Z'] =>
                                    match pyDatetime y mo.1 d.1 h.1 mi.1 with
                                    | .ok dt => some { dt with second := sec.1 }
                                    | .error _ => none
                                  | _ => none)
                            | _ => none)
                      | _ => none)
                | _ => none)
          | _ => none)
    else none
  | _ => none

/-- `_parse_iso_utc` (summaryflow_v3.py lines 313-321 and its identical copy
in summaryflow_v4.py lines 80-86).  The non-`Z` branch
(`fromisoformat(...).astimezone(utc)`) converts offset-naive timestamps
through the process-local timezone, which is environment-dependent; it is
modelled as unparseable (every timestamp the claims exercise uses the `Z`
form, which is modelled exactly). -/
def parse_iso_utc (ts : Str) : Option PyDateTime :=
  if endsWithStr (strL "Z") ts then parseIsoZ ts else none

/-- `_make_summary_id` (summaryflow_v3.py lines 308-310):
`f"s_{uuid.uuid4().hex[:8]}"`, with the random `uuid4().hex` draw supplied as
the `uuidHex` argument. -/
def make_summary_id (uuidHex : Str) : Str :=
  strL "s_" ++ uuidHex.take 8

/-! ### Records, JSON serialization and the store (`summaryflow_v4.py`) -/

/-- The input payload (`str(payload.get(k, ""))` for the five keys; absent
keys behave as the empty string, which the field representation subsumes). -/
structure Payload where
  user_id : Str
  platform : Str
  message_id : Str
  message_text : Str
  timestamp : Str
deriving Repr, DecidableEq

/-- The `entities` sub-dict of the v4 record. -/
structure Entities where
  person : List Str
  datetime : Option Str
deriving Repr, DecidableEq

/-- The record built by the v4 `summarize_message` (summaryflow_v4.py lines
55-70); each structure field is one key of the result dict, in order. -/
structure SummaryRecordV4 where
  summary_id : Str
  user_id : Str
  platform : Str
  message_id : Str
  summary : Str
  intent : Str
  urgency : Str
  entities : Entities
  context_flags : List Str
  generated_at : Str
  device_context : Str
deriving Repr, DecidableEq

/-- Opening and closing curly braces (used by the JSON serialization). -/
def lbrace : Char := Char.ofNat 123

def rbrace : Char := Char.ofNat 125

/-- JSON values, restricted to the constructors this module ever stores or
reads back. -/
inductive Json where
  | str (s : Str)
  | null
  | arr (elems : List Json)
  | obj (members : List (Str × Json))
deriving Repr

/-- The dict `{"person": [...], "datetime": ...}` as a JSON value (dict
insertion order). -/
def entitiesToJson (e : Entities) : Json :=
  .obj [(strL "person", .arr (e.person.map .str)),
        (strL "datetime", match e.datetime with | some d => .str d | none => .null)]

/-- One character under `json.dumps` string escaping (`ensure_ascii=False`):
quote, backslash and the named control escapes, `\u00xx` for the remaining
control characters, everything else verbatim. -/
def jsonEscChar (c : Char) : Str :=
  if c = '"' then ['\\', '"']
  else if c = '\\' then ['\\', '\\']
  else if c = '\n' then ['\\', 'n']
  else if c = '\r' then ['\\', 'r']
  else if c = '\t' then ['\\', 't']
  else if c.toNat = 8 then ['\\', 'b']
  else if c.toNat = 12 then ['\\', 'f']
  else if c.toNat < 32 then
    ['\\', 'u', '0', '0', hexDigit (c.toNat / 16), hexDigit (c.toNat % 16)]
  else [c]
where
  hexDigit (n : Nat) : Char :=
    if n < 10 then Char.ofNat (48 + n) else Char.ofNat (87 + n)

def jsonEsc (s : Str) : Str :=
  (s.map jsonEscChar).flatten

/-- `json.dumps` of a string. -/
def dumpsStr (s : Str) : Str :=
  '"' :: jsonEsc s ++ ['"']

/-- `json.dumps(entities, ensure_ascii=False)` on the entities dict, with the
default separators `", "` and `": "`. -/
def dumpsEntities (e : Entities) : Str :=
  [lbrace] ++ dumpsStr (strL "person") ++ strL ": [" ++
    joinWith (strL ", ") (e.person.map dumpsStr) ++ strL "], " ++
    dumpsStr (strL "datetime") ++ strL ": " ++
    (match e.datetime with | some d => dumpsStr d | none => strL "null") ++ [rbrace]

/-- JSON whitespace (`json.loads` skips space, tab, newline, return). -/
def jsonWs (c : Char) : Bool :=
  c = ' ' || c = '\t' || c = '\n' || c = '\r'

def skipJsonWs (s : Str) : Str :=
  s.dropWhile jsonWs

/-- Hexadecimal digit value, for `\uXXXX` escapes. -/
def hexVal (c : Char) : Option Nat :=
  if '0' ≤ c && c ≤ '9' then some (c.toNat - 48)
  else if 'a' ≤ c && c ≤ 'f' then some (c.toNat - 87)
  else if 'A' ≤ c && c ≤ 'F' then some (c.toNat - 55)
  else none

/-- JSON string body after the opening quote: strict mode (raw control
characters rejected), the standard escapes, and BMP `\uXXXX` escapes below
the surrogate range (all this module ever emits). -/
def parseStrBody (acc : Str) : Str → Option (Str × Str)
  | [] => none
  | c :: t =>
    if c = '"' then some (acc.reverse, t)
    else if c = '\\' then
      match t with
      | [] => none
      | e :: t1 =>
        if e = '"' then parseStrBody ('"' :: acc) t1
        else if e = '\\' then parseStrBody ('\\' :: acc) t1
        else if e = '/' then parseStrBody ('/' :: acc) t1
        else if e = 'n' then parseStrBody ('\n' :: acc) t1
        else if e = 'r' then parseStrBody ('\r' :: acc) t1
        else if e = 't' then parseStrBody ('\t' :: acc) t1
        else if e = 'b' then parseStrBody (Char.ofNat 8 :: acc) t1
        else if e = 'f' then parseStrBody (Char.ofNat 12 :: acc) t1
        else if e = 'u' then
          match t1 with
          | h1 :: h2 :: h3 :: h4 :: t2 =>
            match hexVal h1, hexVal h2, hexVal h3, hexVal h4 with
            | some a, some b, some c, some d =>
              let n := ((a * 16 + b) * 16 + c) * 16 + d
              if n < 0xd800 then parseStrBody (Char.ofNat n :: acc) t2 else none
            | _, _, _, _ => none
          | _ => none
        else none
    else if c.toNat < 32 then none
    else parseStrBody (c :: acc) t

def parseJsonStr (s : Str) : Option (Str × Str) :=
  match s with
  | c :: t => if c = '"' then parseStrBody [] t else none
  | [] => none

/-- A scalar JSON value: a string or `null` (the only scalars this module
stores). -/
def parseScalar (s : Str) : Option (Json × Str) :=
  match parseJsonStr s with
  | some (v, r) => some (.str v, r)
  | none =>
    if strStarts (strL "null") s then some (.null, s.drop 4) else none

/-- Elements of a nonempty array of scalars (fuel-bounded; each step consumes
at least one character). -/
def parseArrTail : Nat → Str → Option (List Json × Str)
  | 0, _ => none
  | fuel + 1, s =>
    match parseScalar (skipJsonWs s) with
    | none => none
    | some (j, r) =>
      match skipJsonWs r with
      | ']' :: r2 => some ([j], r2)
      | ',' :: r2 =>
        match parseArrTail fuel r2 with
        | some (l, rr) => some (j :: l, rr)
        | none => none
      | _ => none

/-- A JSON value as stored by this module: a scalar or an array of scalars. -/
def parseValue (s : Str) : Option (Json × Str) :=
  let s := skipJsonWs s
  match s with
  | '[' :: t =>
    match skipJsonWs t with
    | ']' :: r => some (.arr [], r)
    | _ =>
      match parseArrTail (t.length + 1) t with
      | some (l, r) => some (.arr l, r)
      | none => none
  | _ => parseScalar s

/-- Members of a nonempty JSON object (fuel-bounded). -/
def parseMembersTail : Nat → Str → Option (List (Str × Json) × Str)
  | 0, _ => none
  | fuel + 1, s =>
    match parseJsonStr (skipJsonWs s) with
    | none => none
    | some (k, r) =>
      match skipJsonWs r with
      | ':' :: r2 =>
        match parseValue r2 with
        | none => none
        | some (v, r3) =>
          match skipJsonWs r3 with
          | c :: r4 =>
            if c = rbrace then some ([(k, v)], r4)
            else if c = ',' then
              match parseMembersTail fuel r4 with
              | some (l, rr) => some ((k, v) :: l, rr)
              | none => none
            else none
          | [] => none
      | _ => none

/-- `json.loads`, modelled on the value shapes this module stores: an object
of scalar-or-scalar-array values, or a bare scalar/array. -/
def jsonLoads (s : Str) : Option Json :=
  let s1 := skipJsonWs s
  match s1 with
  | c :: t =>
    if c = lbrace then
      match skipJsonWs t with
      | d :: t2 =>
        if d = rbrace then
          if (skipJsonWs t2).isEmpty then some (.obj []) else none
        else
          match parseMembersTail (t.length + 1) (skipJsonWs t) with
          | some (l, r) => if (skipJsonWs r).isEmpty then some (.obj l) else none
          | none => none
      | [] => none
    else
      match parseValue s1 with
      | some (j, r) => if (skipJsonWs r).isEmpty then some j else none
      | none => none
  | [] => none

/-- One row of the `summaries` table as written by `save_summary_v4`
(summaryflow_v4.py lines 148-176): `entities` is the serialized JSON text,
`timestamp` the record's `generated_at`. -/
structure StoredRow where
  summary_id : Str
  user_id : Str
  platform : Str
  message_id : Str
  summary : Str
  intent : Str
  urgency : Str
  entities : Str
  timestamp : Str
deriving Repr, DecidableEq

/-- The `summaries` table (rows keyed by `summary_id`). -/
abbrev Store := List StoredRow

/-- `save_summary_v4`: `INSERT OR REPLACE` keyed on the primary key
`summary_id`. -/
def save_summary_v4 (r : SummaryRecordV4) (st : Store) : Store :=
  let row : StoredRow :=
    { summary_id := r.summary_id, user_id := r.user_id, platform := r.platform,
      message_id := r.message_id, summary := r.summary, intent := r.intent,
      urgency := r.urgency, entities := dumpsEntities r.entities,
      timestamp := r.generated_at }
  if st.any (fun q => q.summary_id = r.summary_id) then
    st.map (fun q => if q.summary_id = r.summary_id then row else q)
  else st ++ [row]

/-- The dict returned by `fetch_summary_v4` (summaryflow_v4.py lines
197-207): `entities` parsed back from JSON (the raw text is kept when parsing
fails; an empty column is the empty dict). -/
structure FetchedRecord where
  summary_id : Str
  user_id : Str
  platform : Str
  message_id : Str
  summary : Str
  intent : Str
  urgency : Str
  entities : Json
  generated_at : Str

/-- `fetch_summary_v4` (summaryflow_v4.py lines 179-209). -/
def fetch_summary_v4 (summary_id : Str) (st : Store) : Option FetchedRecord :=
  match st.find? (fun q => q.summary_id = summary_id) with
  | none => none
  | some row =>
    let entities : Json :=
      if row.entities.isEmpty then .obj []
      else
        match jsonLoads row.entities with
        | some j => j
        | none => .str row.entities
    some { summary_id := row.summary_id, user_id := row.user_id,
           platform := row.platform, message_id := row.message_id,
           summary := row.summary, intent := row.intent, urgency := row.urgency,
           entities := entities, generated_at := row.timestamp }

/-- `summarize_message` (summaryflow_v4.py lines 23-77).  Nondeterministic
ingredients are explicit arguments: `uuidHex` is the `uuid4().hex` draw,
`now` the value of `datetime.now(timezone.utc)` (used both as the fallback
anchor and for `generated_at`), and `writeOk` whether the store write
succeeds (a failing write raises inside the `try`, is swallowed, and leaves
the store unchanged).  An exception escaping the pipeline itself (the
uncaught `ValueError` of `_extract_datetime`) is the `.error` outcome. -/
def summarize_message (payload : Payload) (uuidHex : Str) (now : PyDateTime)
    (writeOk : Bool) (st : Store) : Except Unit SummaryRecordV4 × Store :=
  let user_id := pyStrip payload.user_id
  let platform := pyStrip payload.platform
  let message_id := pyStrip payload.message_id
  let raw_message_text := pyStrip payload.message_text
  let anchor_ts_str := pyStrip payload.timestamp
  let anchor_ts := (parse_iso_utc anchor_ts_str).getD now
  let cleaned := clean_all platform raw_message_text
  let message_text := preprocess_text platform cleaned.1
  let people := extract_people message_text
  match extract_datetime message_text anchor_ts with
  | .error e => (.error e, st)
  | .ok target_dt =>
    let msg_type := classify_type message_text
    let detailed_intent := classify_intent message_text msg_type
    let urgency := classify_urgency message_text target_dt anchor_ts
    let summary_text := build_summary message_text detailed_intent msg_type people
      target_dt anchor_ts
    let api_intent := map_type_to_api_intent msg_type
    let context_flags :=
      (if target_dt.isSome then [strL "has_date"] else []) ++
      (if !people.isEmpty then [strL "has_person"] else []) ++
      (if detailed_intent = strL "follow_up"
          || containsSub (strLower message_text) (strL "follow up")
          || containsSub (strLower message_text) (strL "follow-up")
          || cleaned.2.1 = strL "true" then [strL "follow_up"] else [])
    let result : SummaryRecordV4 :=
      { summary_id := make_summary_id uuidHex,
        user_id := user_id, platform := platform, message_id := message_id,
        summary := summary_text, intent := api_intent, urgency := urgency,
        entities := { person := people, datetime := target_dt.map format_iso_utc },
        context_flags := context_flags,
        generated_at := format_iso_utc now,
        device_context := detect_device_context platform raw_message_text }
    (.ok result, if writeOk then save_summary_v4 result st else st)

/-- The result dict literal of the v4 `summarize_message` (lines 55-70),
rendered as an association list: its keys, in construction order, with the
record's values as JSON-ish values. -/
def recordAssoc (r : SummaryRecordV4) : List (Str × Json) :=
  [(strL "summary_id", .str r.summary_id),
   (strL "user_id", .str r.user_id),
   (strL "platform", .str r.platform),
   (strL "message_id", .str r.message_id),
   (strL "summary", .str r.summary),
   (strL "intent", .str r.intent),
   (strL "urgency", .str r.urgency),
   (strL "entities", entitiesToJson r.entities),
   (strL "context_flags", .arr (r.context_flags.map .str)),
   (strL "generated_at", .str r.generated_at),
   (strL "device_context", .str r.device_context)]

/-! ### Concrete inputs used by the claim instances -/

/-- The anchor instant `2025-11-20T14:00:00Z` of the spec's examples. -/
def now0 : PyDateTime :=
  { days := daysFromCivil 2025 11 20, hour := 14, minute := 0, second := 0 }

/-- A concrete `uuid4().hex` draw. -/
def u0 : Str := strL "0123456789abcdef"

/-- A second and a third concrete `uuid4().hex` draw. -/
def uA : Str := strL "aaaaaaaa0000"

def uB : Str := strL "bbbbbbbb0000"

/-- A payload whose message text is just `"99"`. -/
def pl1 : Payload :=
  { user_id := strL "u1", platform := strL "", message_id := strL "m1",
    message_text := strL "99", timestamp := strL "2025-11-20T14:00:00Z" }

/-- A plain greeting payload. -/
def pl2 : Payload :=
  { user_id := strL "u2", platform := strL "whatsapp", message_id := strL "m2",
    message_text := strL "hello there", timestamp := strL "2025-11-20T14:00:00Z" }

/-- An email-platform payload whose body ends in a `Regards,` signature
block naming Alice. -/
def pl3 : Payload :=
  { user_id := strL "u3", platform := strL "email", message_id := strL "m3",
    message_text := strL "Hello\nRegards,\nAlice",
    timestamp := strL "2025-11-20T14:00:00Z" }

/-- A payload whose message text is `"wow!!!"`. -/
def pl5 : Payload :=
  { user_id := strL "u5", platform := strL "whatsapp", message_id := strL "m5",
    message_text := strL "wow!!!", timestamp := strL "2025-11-20T14:00:00Z" }

/-- The payload of the spec's date-resolution example (the message text is
`"Let\x27s meet tomorrow at 5 pm"`). -/
def pl6 : Payload :=
  { user_id := strL "u6", platform := strL "whatsapp", message_id := strL "m6",
    message_text := strL "Let" ++ [Char.ofNat 39] ++ strL "s meet tomorrow at 5 pm",
    timestamp := strL "2025-11-20T14:00:00Z" }

/-- A payload for the store round-trip instance. -/
def pl8 : Payload :=
  { user_id := strL "u8", platform := strL "email", message_id := strL "m8",
    message_text := strL "hello", timestamp := strL "2025-11-20T10:00:00Z" }

/-- A payload summarized twice for the idempotence caveat. -/
def pl9 : Payload :=
  { user_id := strL "u9", platform := strL "slack", message_id := strL "m9",
    message_text := strL "same message", timestamp := strL "2025-11-20T14:00:00Z" }

/-- An all-empty record, used as the default of `okOr`. -/
def blankRecord : SummaryRecordV4 :=
  { summary_id := [], user_id := [], platform := [], message_id := [],
    summary := [], intent := [], urgency := [],
    entities := { person := [], datetime := none },
    context_flags := [], generated_at := [], device_context := [] }

/-- The record of a successful summarize outcome (the default on error). -/
def okOr (d : SummaryRecordV4) : Except Unit SummaryRecordV4 → SummaryRecordV4
  | .ok r => r
  | .error _ => d

/-- The record returned for `pl2`. -/
def rec2 : SummaryRecordV4 := okOr blankRecord (summarize_message pl2 u0 now0 true []).1

/-- The record returned for `pl8`. -/
def rec8 : SummaryRecordV4 := okOr blankRecord (summarize_message pl8 u0 now0 true []).1

/-- The records of the two summarize calls on the identical payload `pl9`. -/
def rec9a : SummaryRecordV4 := okOr blankRecord (summarize_message pl9 uA now0 true []).1

def rec9b : SummaryRecordV4 := okOr blankRecord (summarize_message pl9 uB now0 true []).1

/-- The urgency cascade as the (amended) spec words it, over the text the
classifier receives: urgency keywords or at least three exclamation marks in
that text give `high` before any date reasoning; with a resolved datetime
the 6-hour/48-hour thresholds apply; otherwise the soft-deadline keywords
give `medium`, default `low`. -/
def urgencySpec (text : Str) (dt : Option PyDateTime) (anchor : PyDateTime) : Str :=
  if containsAny (strLower text) [strL "emergency", strL "critical", strL "urgent",
      strL "asap", strL "immediately", strL "high priority", strL "priority"]
      || decide (3 <= countBangs (strLower text)) then
    strL "high"
  else
    match dt with
    | some d =>
      if deltaSeconds d anchor <= 6 * 3600 then strL "high"
      else if deltaSeconds d anchor <= 48 * 3600 then strL "medium"
      else strL "low"
    | none =>
      if containsAny (strLower text) [strL "soon", strL "tomorrow", strL "today",
          strL "eod", strL "end of day", strL "tonight"] then
        strL "medium"
      else strL "low"

/-- The device-context rule table as the claim words it: markers tried in
order, each yielding its device. -/
def deviceContextRules : List (List Str × Str) :=
  [([strL "sent from my iphone", strL "ios"], strL "ios"),
   ([strL "sent from my android", strL "android"], strL "android"),
   ([strL "windows"], strL "windows"),
   ([strL "mac os x", strL "macos", strL "mac"], strL "macos"),
   ([strL "web", strL "via web"], strL "web")]

/-- First rule whose marker list has a member contained in `t`. -/
def firstRuleMatch (t : Str) : List (List Str × Str) → Str
  | [] => strL "unknown"
  | r :: rs => if r.1.any (fun m => containsSub t m) then r.2 else firstRuleMatch t rs

/-- The claim's wording of the device-context guess: a first-match,
case-insensitive substring scan over the rule table. -/
def deviceContextSpec (raw : Str) : Str :=
  firstRuleMatch (strLower raw) deviceContextRules


theorem findWeekdayIdx_lt (tl : Str) (i : Nat) (h : findWeekdayIdx tl = some i) : i < 7 := by
  unfold findWeekdayIdx weekdaysList at h
  simp only [List.findIdx?] at h
  repeat' split at h
  all_goals simp_all
  all_goals omega

theorem firstDefaultTime_valid (tl : Str) (h m : Nat)
    (hf : firstDefaultTime tl = some (h, m)) : h ≤ 23 ∧ m ≤ 59 := by
  unfold firstDefaultTime default_times at hf
  simp only [List.find?] at hf
  repeat' split at hf
  all_goals simp_all
  all_goals omega

theorem strStarts_cons (c : Char) (p s : Str) :
    strStarts (c :: p) s = true ↔ ∃ t, s = c :: t ∧ strStarts p t = true := by
  cases s with
  | nil => simp [strStarts, List.isPrefixOf]
  | cons d t =>
    simp only [strStarts, List.isPrefixOf, Bool.and_eq_true, beq_iff_eq]
    constructor
    · rintro ⟨h1, h2⟩
      exact ⟨t, by rw [h1], h2⟩
    · rintro ⟨t2, he, h2⟩
      cases he
      exact ⟨rfl, h2⟩

theorem emailLoop_sig_nosubj (ls : List Str) (subj : Option Str)
    (hsub : ∀ l ∈ ls, strStarts (strL "subject:") (strLower (pyStrip l)) = false) :
    emailLoop true subj ls = (subj, []) := by
  induction ls with
  | nil => rfl
  | cons l rest ih =>
    have hl := hsub l (by simp)
    have hrest : ∀ x ∈ rest, strStarts (strL "subject:") (strLower (pyStrip x)) = false :=
      fun x hx => hsub x (by simp [hx])
    unfold emailLoop
    dsimp only
    repeat' split
    all_goals simp_all [ih hrest]

theorem stripTrailWS_cons_nonspace (c : Char) (t : Str) (hc : pyIsSpace c = false) :
    ∃ u, stripTrailWS (c :: t) = c :: u := by
  induction t using List.reverseRecOn with
  | nil =>
    refine ⟨[], ?_⟩
    simp [stripTrailWS, List.dropWhile, hc]
  | append_singleton u a ih =>
    by_cases ha : pyIsSpace a = true
    · obtain ⟨v, hv⟩ := ih
      refine ⟨v, ?_⟩
      rw [← hv]
      simp [stripTrailWS, List.dropWhile, ha]
    · refine ⟨u ++ [a], ?_⟩
      simp only [stripTrailWS, List.reverse_cons, List.reverse_append, List.reverse_singleton]
      simp [List.dropWhile, Bool.not_eq_true] at ha ⊢
      simp [ha]

theorem strStarts_trans (p q s : Str) (hpq : strStarts p q = true) (hqs : strStarts q s = true) :
    strStarts p s = true := by
  simp only [strStarts, List.isPrefixOf_iff_prefix] at *
  exact hpq.trans hqs

theorem regards_line_checks (r : Str) (hr : strStarts (strL "Regards,") (pyStrip r) = true) :
    (pyStrip r).isEmpty = false ∧
    strStarts (strL "subject:") (strLower (pyStrip r)) = false ∧
    strStarts (strL ">") (pyStrip r) = false ∧
    forwardedMarkers.any (fun m => strStarts m (pyStrip r)) = false ∧
    isOnWroteLineCI (pyStrip r) = false ∧
    signatureMarkers.any (fun m => strStarts m (pyStrip r)) = true := by
  obtain ⟨t, ht, -⟩ := (strStarts_cons 'R' _ _).mp hr
  refine ⟨by simp [ht], ?_, ?_, ?_, ?_, ?_⟩
  · rw [ht]
    simp [strLower, strStarts, List.isPrefixOf, lowerChar]
  · rw [ht]
    simp [strStarts, List.isPrefixOf]
  · rw [ht]
    simp [forwardedMarkers, strStarts, List.isPrefixOf, strL]
  · rw [ht]
    unfold isOnWroteLineCI
    have hlow : strLower ('R' :: t) = 'r' :: strLower t := by
      simp [strLower, lowerChar]
    rw [hlow]
    obtain ⟨u, hu⟩ := stripTrailWS_cons_nonspace 'r' (strLower t) (by decide)
    rw [hu]
    simp [strStarts, List.isPrefixOf, strL]
  · rw [ht]
    apply List.any_eq_true.mpr
    refine ⟨strL "Regards", by simp [signatureMarkers], ?_⟩
    have h1 : strStarts (strL "Regards") (strL "Regards,") = true := by decide
    have h2 : strStarts (strL "Regards,") ('R' :: t) = true := ht ▸ hr
    exact strStarts_trans _ _ _ h1 h2

theorem emailLoop_regards_cut (r : Str) (rest : List Str)
    (hr : strStarts (strL "Regards,") (pyStrip r) = true)
    (hsub : ∀ l ∈ rest, strStarts (strL "subject:") (strLower (pyStrip l)) = false) :
    ∀ pre sig subj, emailLoop sig subj (pre ++ r :: rest) = emailLoop sig subj pre := by
  intro pre
  induction pre with
  | nil =>
    intro sig subj
    obtain ⟨h1, h2, h3, h4, h5, h6⟩ := regards_line_checks r hr
    show emailLoop sig subj (r :: rest) = (subj, [])
    unfold emailLoop
    dsimp only
    rw [if_neg (by simp [h1]), if_neg (by simp [h2]), if_neg (by simp [h3]),
        if_neg (by simp [h4]), if_neg (by simp [h5]), if_pos (by simp [h6])]
    rw [h6, Bool.or_true]
    exact emailLoop_sig_nosubj rest subj hsub
  | cons l pre ih =>
    intro sig subj
    simp only [List.cons_append]
    unfold emailLoop
    dsimp only
    repeat' split
    all_goals simp [ih]

theorem hexVal_hexDigit (n : Nat) (h : n < 16) : hexVal (jsonEscChar.hexDigit n) = some n := by
  unfold hexVal jsonEscChar.hexDigit
  interval_cases n <;> decide

theorem parseStrBody_esc (s : Str) : ∀ (acc rest : Str),
    parseStrBody acc (jsonEsc s ++ '"' :: rest) = some (acc.reverse ++ s, rest) := by
  induction s with
  | nil =>
    intro acc rest
    conv_lhs => rw [parseStrBody.eq_def]
    simp [jsonEsc]
  | cons c s ih =>
    intro acc rest
    rw [show jsonEsc (c :: s) = jsonEscChar c ++ jsonEsc s by simp [jsonEsc],
        List.append_assoc]
    by_cases h1 : c = '"'
    · subst h1
      rw [show jsonEscChar '"' = ['\\', '"'] from rfl]
      simp only [List.cons_append, List.nil_append]
      conv_lhs => rw [parseStrBody.eq_def]
      simp [ih]
    · by_cases h2 : c = '\\'
      · subst h2
        rw [show jsonEscChar '\\' = ['\\', '\\'] from rfl]
        simp only [List.cons_append, List.nil_append]
        conv_lhs => rw [parseStrBody.eq_def]
        simp [ih]
      · by_cases h3 : c = '\n'
        · subst h3
          rw [show jsonEscChar '\n' = ['\\', 'n'] from rfl]
          simp only [List.cons_append, List.nil_append]
          conv_lhs => rw [parseStrBody.eq_def]
          simp [ih]
        · by_cases h4 : c = '\r'
          · subst h4
            rw [show jsonEscChar '\r' = ['\\', 'r'] from rfl]
            simp only [List.cons_append, List.nil_append]
            conv_lhs => rw [parseStrBody.eq_def]
            simp [ih]
          · by_cases h5 : c = '\t'
            · subst h5
              rw [show jsonEscChar '\t' = ['\\', 't'] from rfl]
              simp only [List.cons_append, List.nil_append]
              conv_lhs => rw [parseStrBody.eq_def]
              simp [ih]
            · by_cases h6 : c.toNat = 8
              · have hc : Char.ofNat 8 = c := by rw [← h6, Char.ofNat_toNat]
                have he : jsonEscChar c = ['\\', 'b'] := by
                  unfold jsonEscChar
                  rw [if_neg h1, if_neg h2, if_neg h3, if_neg h4, if_neg h5, if_pos h6]
                rw [he]
                simp only [List.cons_append, List.nil_append]
                conv_lhs => rw [parseStrBody.eq_def]
                simp [ih, hc]
                exact hc
              · by_cases h7 : c.toNat = 12
                · have hc : Char.ofNat 12 = c := by rw [← h7, Char.ofNat_toNat]
                  have he : jsonEscChar c = ['\\', 'f'] := by
                    unfold jsonEscChar
                    rw [if_neg h1, if_neg h2, if_neg h3, if_neg h4, if_neg h5,
                        if_neg h6, if_pos h7]
                  rw [he]
                  simp only [List.cons_append, List.nil_append]
                  conv_lhs => rw [parseStrBody.eq_def]
                  simp [ih, hc]
                  exact hc
                · by_cases h8 : c.toNat < 32
                  · have he : jsonEscChar c = ['\\', 'u', '0', '0',
                        jsonEscChar.hexDigit (c.toNat / 16),
                        jsonEscChar.hexDigit (c.toNat % 16)] := by
                      unfold jsonEscChar
                      rw [if_neg h1, if_neg h2, if_neg h3, if_neg h4, if_neg h5,
                          if_neg h6, if_neg h7, if_pos h8]
                    rw [he]
                    simp only [List.cons_append, List.nil_append]
                    conv_lhs => rw [parseStrBody.eq_def]
                    dsimp only
                    rw [show hexVal '0' = some 0 from rfl,
                        hexVal_hexDigit _ (by omega), hexVal_hexDigit _ (by omega)]
                    have hn : ((0 * 16 + 0) * 16 + c.toNat / 16) * 16 + c.toNat % 16
                        = c.toNat := by omega
                    simp only [hn]
                    rw [if_pos (show c.toNat < 55296 by omega)]
                    simp [ih, Char.ofNat_toNat]
                  · have he : jsonEscChar c = [c] := by
                      unfold jsonEscChar
                      rw [if_neg h1, if_neg h2, if_neg h3, if_neg h4, if_neg h5,
                          if_neg h6, if_neg h7, if_neg h8]
                    rw [he]
                    simp only [List.cons_append, List.nil_append]
                    conv_lhs => rw [parseStrBody.eq_def]
                    dsimp only
                    rw [if_neg h1, if_neg h2, if_neg (by omega : ¬c.toNat < 32), ih]
                    simp

theorem parseJsonStr_dumps (s rest : Str) :
    parseJsonStr (dumpsStr s ++ rest) = some (s, rest) := by
  unfold dumpsStr parseJsonStr
  simp only [List.cons_append, List.append_assoc, List.singleton_append]
  rw [if_pos trivial]
  rw [parseStrBody_esc]
  simp

theorem parseScalar_dumps (s rest : Str) :
    parseScalar (dumpsStr s ++ rest) = some (.str s, rest) := by
  unfold parseScalar
  rw [parseJsonStr_dumps]

theorem parseScalar_null (rest : Str) :
    parseScalar (strL "null" ++ rest) = some (.null, rest) := by
  unfold parseScalar parseJsonStr
  simp [strL, strStarts, List.isPrefixOf]

theorem skipJsonWs_quote (t : Str) : skipJsonWs ('"' :: t) = '"' :: t := by
  simp [skipJsonWs, List.dropWhile, jsonWs]

theorem dumpsStr_cons (s : Str) : ∃ t, dumpsStr s = '"' :: t := ⟨_, rfl⟩

theorem parseArrTail_dumps (ps : List Str) (hne : ps ≠ []) :
    ∀ (fuel : Nat) (rest : Str), ps.length ≤ fuel →
    parseArrTail fuel (joinWith (strL ", ") (ps.map dumpsStr) ++ ']' :: rest)
      = some (ps.map Json.str, rest) := by
  induction ps with
  | nil => exact absurd rfl hne
  | cons p ps ih =>
    intro fuel rest hfuel
    match fuel, hfuel with
    | fuel + 1, hf =>
      cases ps with
      | nil =>
        unfold parseArrTail
        simp only [List.map_cons, List.map_nil, joinWith, List.append_assoc]
        rw [show skipJsonWs (dumpsStr p ++ ']' :: rest) = dumpsStr p ++ ']' :: rest by
          obtain ⟨t, ht⟩ := dumpsStr_cons p
          rw [ht]
          simp [skipJsonWs, List.dropWhile, jsonWs]]
        rw [parseScalar_dumps]
        simp [skipJsonWs, List.dropWhile, jsonWs]
      | cons q ps2 =>
        unfold parseArrTail
        have hjoin : joinWith (strL ", ") ((p :: q :: ps2).map dumpsStr)
            = dumpsStr p ++ strL ", " ++ joinWith (strL ", ") ((q :: ps2).map dumpsStr) := by
          simp [joinWith]
        rw [hjoin]
        simp only [List.append_assoc]
        rw [show skipJsonWs (dumpsStr p ++ (strL ", " ++ (joinWith (strL ", ") ((q :: ps2).map dumpsStr) ++ ']' :: rest)))
            = dumpsStr p ++ (strL ", " ++ (joinWith (strL ", ") ((q :: ps2).map dumpsStr) ++ ']' :: rest)) by
          obtain ⟨t, ht⟩ := dumpsStr_cons p
          rw [ht]
          simp [skipJsonWs, List.dropWhile, jsonWs]]
        rw [parseScalar_dumps]
        dsimp only
        have hstep : skipJsonWs (strL ", " ++ (joinWith (strL ", ") ((q :: ps2).map dumpsStr) ++ ']' :: rest))
            = ',' :: (' ' :: (joinWith (strL ", ") ((q :: ps2).map dumpsStr) ++ ']' :: rest)) := by
          simp [strL, skipJsonWs, List.dropWhile, jsonWs]
        rw [hstep]
        have harg : parseArrTail fuel (' ' :: (joinWith (strL ", ") ((q :: ps2).map dumpsStr) ++ ']' :: rest))
            = parseArrTail fuel (joinWith (strL ", ") ((q :: ps2).map dumpsStr) ++ ']' :: rest) := by
          match fuel with
          | 0 => rfl
          | g + 1 =>
            unfold parseArrTail
            rw [show skipJsonWs (' ' :: (joinWith (strL ", ") ((q :: ps2).map dumpsStr) ++ ']' :: rest))
                = skipJsonWs (joinWith (strL ", ") ((q :: ps2).map dumpsStr) ++ ']' :: rest) by
              simp [skipJsonWs, List.dropWhile, jsonWs]]
        have ihh := ih (by simp) fuel rest (by simp at hf ⊢; omega)
        simp only [List.map_cons] at harg ihh
        simp [harg, ihh]

theorem skipJsonWs_nonws (c : Char) (x : Str) (h : jsonWs c = false) :
    skipJsonWs (c :: x) = c :: x := by
  simp [skipJsonWs, List.dropWhile, h]

theorem skipJsonWs_space (x : Str) : skipJsonWs (' ' :: x) = skipJsonWs x := by
  simp [skipJsonWs, List.dropWhile, jsonWs]

theorem parseValue_ws (x : Str) : parseValue (' ' :: x) = parseValue x := by
  unfold parseValue
  rw [skipJsonWs_space]

theorem dumpsStr_len (s : Str) : 2 ≤ (dumpsStr s).length := by
  simp [dumpsStr]

theorem joinWith_dumps_len (ps : List Str) (hne : ps ≠ []) :
    ps.length ≤ (joinWith (strL ", ") (ps.map dumpsStr)).length := by
  induction ps with
  | nil => exact absurd rfl hne
  | cons p ps ih =>
    cases ps with
    | nil =>
      have := dumpsStr_len p
      simp only [List.map_cons, List.map_nil, joinWith, List.length_cons, List.length_nil]
      omega
    | cons q ps2 =>
      have h2 := ih (by simp)
      have h3 := dumpsStr_len p
      have hj : joinWith (strL ", ") (dumpsStr p :: dumpsStr q :: List.map dumpsStr ps2)
          = dumpsStr p ++ strL ", " ++ joinWith (strL ", ") (dumpsStr q :: List.map dumpsStr ps2) :=
        rfl
      simp only [List.map_cons] at h2 ⊢
      rw [hj]
      have hsep : (strL ", ").length = 2 := rfl
      simp only [List.length_append, List.length_cons, hsep]
      simp only [List.length_cons] at h2
      omega

theorem parseValue_personArr (ps : List Str) (rest : Str) :
    parseValue ('[' :: (joinWith (strL ", ") (ps.map dumpsStr) ++ ']' :: rest))
      = some (.arr (ps.map .str), rest) := by
  cases ps with
  | nil =>
    unfold parseValue
    rw [skipJsonWs_nonws _ _ (by decide)]
    dsimp only
    simp only [List.map_nil, joinWith, List.nil_append]
    rw [show skipJsonWs (']' :: rest) = ']' :: rest from skipJsonWs_nonws _ _ (by decide)]
    rfl
  | cons p ps2 =>
    obtain ⟨u, hu⟩ : ∃ u, joinWith (strL ", ") ((p :: ps2).map dumpsStr) = '"' :: u := by
      cases ps2 <;> exact ⟨_, rfl⟩
    unfold parseValue
    rw [skipJsonWs_nonws _ _ (by decide)]
    dsimp only
    split
    · rename_i t heq
      injection heq with h1 h2
      subst h2
      split
      · rename_i r heq2
        rw [hu, List.cons_append] at heq2
        rw [skipJsonWs_nonws '"' (u ++ ']' :: rest) (by decide)] at heq2
        simp at heq2
      · rw [parseArrTail_dumps (p :: ps2) (by simp) _ rest
          (by
            have := joinWith_dumps_len (p :: ps2) (by simp)
            simp only [List.length_append, List.length_cons]
            simp only [List.length_cons] at this
            omega)]
    · rename_i hno
      exact absurd rfl (hno _)

theorem skipJsonWs_dumps (s x : Str) : skipJsonWs (dumpsStr s ++ x) = dumpsStr s ++ x := by
  obtain ⟨u, hu⟩ := dumpsStr_cons s
  rw [hu, List.cons_append, skipJsonWs_nonws _ _ (by decide), ← List.cons_append]

theorem parseValue_dumpsStr (d rest : Str) : parseValue (dumpsStr d ++ rest) = some (.str d, rest) := by
  obtain ⟨u, hu⟩ := dumpsStr_cons d
  unfold parseValue
  rw [skipJsonWs_dumps]
  rw [hu, List.cons_append]
  dsimp only
  split
  · rename_i t heq
    simp at heq
  · rw [← List.cons_append, ← hu, parseScalar_dumps]

theorem parseValue_nullLit (rest : Str) : parseValue (strL "null" ++ rest) = some (.null, rest) := by
  unfold parseValue
  rw [show strL "null" ++ rest = 'n' :: (strL "ull" ++ rest) from rfl]
  rw [skipJsonWs_nonws _ _ (by decide)]
  dsimp only
  split
  · rename_i t heq
    simp at heq
  · rw [show ('n' : Char) :: (strL "ull" ++ rest) = strL "null" ++ rest from rfl, parseScalar_null]

theorem parseMembersTail_ent (f : Nat) (ps : List Str) (dt : Option Str) (rest : Str) :
    parseMembersTail (f + 2)
      (dumpsStr (strL "person") ++ (':' :: ' ' :: '[' ::
        (joinWith (strL ", ") (ps.map dumpsStr) ++ (']' :: ',' :: ' ' ::
          (dumpsStr (strL "datetime") ++ (':' :: ' ' ::
            ((match dt with | some d => dumpsStr d | none => strL "null") ++ rbrace :: rest)))))))
      = some ([(strL "person", .arr (ps.map .str)),
               (strL "datetime", match dt with | some d => .str d | none => .null)], rest) := by
  cases dt with
  | some d =>
    simp only [parseMembersTail, skipJsonWs_dumps, parseJsonStr_dumps]
    rw [skipJsonWs_nonws ':' _ (by decide)]
    simp only [parseValue_ws]
    rw [show (('[' :: (joinWith (strL ", ") (ps.map dumpsStr) ++ (']' :: ',' :: ' ' ::
          (dumpsStr (strL "datetime") ++ (':' :: ' ' :: (dumpsStr d ++ rbrace :: rest)))))) : Str)
        = '[' :: (joinWith (strL ", ") (ps.map dumpsStr) ++ ']' :: (',' :: ' ' ::
          (dumpsStr (strL "datetime") ++ (':' :: ' ' :: (dumpsStr d ++ rbrace :: rest))))) from rfl]
    rw [parseValue_personArr]
    dsimp only
    rw [skipJsonWs_nonws ',' _ (by decide)]
    dsimp only
    rw [if_neg (by decide : ¬(',' = rbrace)), if_pos rfl]
    simp only [skipJsonWs_space, skipJsonWs_dumps, parseJsonStr_dumps]
    rw [skipJsonWs_nonws ':' _ (by decide)]
    simp only [parseValue_ws, parseValue_dumpsStr]
    rw [skipJsonWs_nonws rbrace _ (by decide)]
    dsimp only
    rw [if_pos rfl]
  | none =>
    simp only [parseMembersTail, skipJsonWs_dumps, parseJsonStr_dumps]
    rw [skipJsonWs_nonws ':' _ (by decide)]
    simp only [parseValue_ws]
    rw [show (('[' :: (joinWith (strL ", ") (ps.map dumpsStr) ++ (']' :: ',' :: ' ' ::
          (dumpsStr (strL "datetime") ++ (':' :: ' ' :: (strL "null" ++ rbrace :: rest)))))) : Str)
        = '[' :: (joinWith (strL ", ") (ps.map dumpsStr) ++ ']' :: (',' :: ' ' ::
          (dumpsStr (strL "datetime") ++ (':' :: ' ' :: (strL "null" ++ rbrace :: rest))))) from rfl]
    rw [parseValue_personArr]
    dsimp only
    rw [skipJsonWs_nonws ',' _ (by decide)]
    dsimp only
    rw [if_neg (by decide : ¬(',' = rbrace)), if_pos rfl]
    simp only [skipJsonWs_space, skipJsonWs_dumps, parseJsonStr_dumps]
    rw [skipJsonWs_nonws ':' _ (by decide)]
    simp only [parseValue_ws, parseValue_nullLit]
    rw [skipJsonWs_nonws rbrace _ (by decide)]
    dsimp only
    rw [if_pos rfl]

theorem jsonLoads_dumpsEntities (e : Entities) :
    jsonLoads (dumpsEntities e) = some (entitiesToJson e) := by
  rcases e with ⟨ps, dt⟩
  have hshape : dumpsEntities ⟨ps, dt⟩ = lbrace ::
      (dumpsStr (strL "person") ++ (':' :: ' ' :: '[' ::
        (joinWith (strL ", ") (ps.map dumpsStr) ++ (']' :: ',' :: ' ' ::
          (dumpsStr (strL "datetime") ++ (':' :: ' ' ::
            ((match dt with | some d => dumpsStr d | none => strL "null") ++
              rbrace :: ([] : Str)))))))) := by
    cases dt <;>
      simp [dumpsEntities, show strL ": [" = [':', ' ', '['] from rfl,
        show strL "], " = [']', ',', ' '] from rfl,
        show strL ": " = [':', ' '] from rfl, List.append_assoc]
  rw [hshape]
  unfold jsonLoads
  rw [skipJsonWs_nonws lbrace _ (by decide)]
  dsimp only
  rw [if_pos rfl]
  rw [skipJsonWs_dumps]
  obtain ⟨u, hu⟩ := dumpsStr_cons (strL "person")
  rw [hu, List.cons_append]
  dsimp only
  rw [if_neg (by decide : ¬('"' = rbrace))]
  rw [← List.cons_append, ← hu]
  have hlen : ∀ X : Str, (dumpsStr (strL "person") ++ X).length + 1
      = ((dumpsStr (strL "person") ++ X).length - 1) + 2 := by
    intro X
    have := dumpsStr_len (strL "person")
    simp only [List.length_append]
    omega
  rw [hlen]
  rw [parseMembersTail_ent]
  dsimp only
  rw [show skipJsonWs ([] : Str) = [] from rfl]
  simp [entitiesToJson]

theorem fetch_after_save (r : SummaryRecordV4) (st : Store) :
    fetch_summary_v4 r.summary_id (save_summary_v4 r st)
      = some { summary_id := r.summary_id, user_id := r.user_id, platform := r.platform,
               message_id := r.message_id, summary := r.summary, intent := r.intent,
               urgency := r.urgency, entities := entitiesToJson r.entities,
               generated_at := r.generated_at } := by
  have hfind : List.find? (fun q => q.summary_id = r.summary_id) (save_summary_v4 r st)
      = some { summary_id := r.summary_id, user_id := r.user_id, platform := r.platform,
               message_id := r.message_id, summary := r.summary, intent := r.intent,
               urgency := r.urgency, entities := dumpsEntities r.entities,
               timestamp := r.generated_at } := by
    unfold save_summary_v4
    dsimp only
    split
    · rename_i hany
      induction st with
      | nil => simp at hany
      | cons q st ih =>
        by_cases hq : q.summary_id = r.summary_id
        · simp [List.find?, hq]
        · simp only [List.any_cons, hq] at hany
          simp only [List.map_cons, List.find?, if_neg hq]
          have h1 : (decide (q.summary_id = r.summary_id)) = false := by
            simpa using hq
          rw [h1]
          simp at hany
          exact ih (by simpa using hany)
    · rename_i hany
      induction st with
      | nil => simp [List.find?]
      | cons q st ih =>
        simp only [List.any_cons, Bool.or_eq_true, not_or] at hany
        simp only [List.cons_append, List.find?]
        have h1 : (decide (q.summary_id = r.summary_id)) = false := by
          simpa using hany.1
        rw [h1]
        exact ih (by simp [hany.2])
  unfold fetch_summary_v4
  rw [hfind]
  dsimp only
  rw [show (dumpsEntities r.entities).isEmpty = false from rfl]
  rw [jsonLoads_dumpsEntities]
  simp

/-- The urgency classifier only ever returns `low`, `medium` or `high`. -/
theorem classify_urgency_mem (t : Str) (dt : Option PyDateTime) (a : PyDateTime) :
    classify_urgency t dt a ∈ [strL "low", strL "medium", strL "high"] := by
  unfold classify_urgency
  dsimp only
  repeat' split
  all_goals decide

/-- The API intent mapping only ever returns one of the five intents. -/
theorem map_intent_mem (ty : Str) :
    map_type_to_api_intent ty ∈ [strL "meeting", strL "reminder", strL "question",
      strL "task", strL "note"] := by
  unfold map_type_to_api_intent
  dsimp only
  repeat' split
  all_goals decide

/-- A successful summarize call's record carries the identifier built from
the call's own `uuid4().hex` draw. -/
theorem summary_id_of_ok (p : Payload) (u : Str) (now : PyDateTime) (w : Bool) (st : Store)
    (r : SummaryRecordV4) (h : (summarize_message p u now w st).1 = .ok r) :
    r.summary_id = make_summary_id u := by
  unfold summarize_message at h
  dsimp only at h
  split at h
  · simp at h
  · simp only [Except.ok.injEq] at h
    subst h
    rfl

/-- Distinct `uuid4().hex` draws (in their first 8 characters) give
distinct summary identifiers. -/
theorem make_summary_id_ne (u v : Str) (h : u.take 8 ≠ v.take 8) :
    make_summary_id u ≠ make_summary_id v := by
  unfold make_summary_id
  intro he
  exact h (List.append_cancel_left he)

/-- When the write succeeds, a successful summarize call leaves exactly its
own record saved into the store. -/
theorem save_of_ok (p : Payload) (u : Str) (now : PyDateTime) (st : Store)
    (r : SummaryRecordV4) (h : (summarize_message p u now true st).1 = .ok r) :
    (summarize_message p u now true st).2 = save_summary_v4 r st := by
  unfold summarize_message at h ⊢
  dsimp only at h ⊢
  split at h
  · simp at h
  · rename_i tdt heq
    simp only [Except.ok.injEq] at h
    subst h
    rfl

/-! ### The claims -/

/-- C1: the summarize call path is not exception-free.  On the message text
`"99"` the clock-time pattern matches with hour group `99`, the
`datetime(...)` construction in `_extract_datetime` raises `ValueError`, and
no handler on the call path catches it (only the store write is guarded), so
the error escapes `summarize_message` and nothing is returned or stored. -/
theorem C1_extract_datetime_value_error :
    summarize_message pl1 u0 now0 true [] = (.error (), []) ∧
    extract_datetime (strL "99") now0 = .error () :=
  ⟨rfl, rfl⟩

/-- C2 (counterexample): the claimed required field `type` is not among the
keys of the record the v4 summarize operation returns. -/
theorem C2_counterexample :
    ∃ r, (summarize_message pl2 u0 now0 true []).1 = .ok r ∧
      strL "type" ∉ (recordAssoc r).map Prod.fst :=
  ⟨_, rfl, by decide⟩

/-- C2 (amended): every record returned by a successful summarize call
carries exactly the keys summary_id, user_id, platform, message_id, summary,
intent, urgency, entities, context_flags, generated_at and device_context
(there is no `type` key), with urgency in {low, medium, high} and intent in
{meeting, reminder, question, task, note}. -/
theorem C2_required_fields (p : Payload) (u : Str) (now : PyDateTime) (w : Bool)
    (st : Store) (r : SummaryRecordV4)
    (h : (summarize_message p u now w st).1 = .ok r) :
    (recordAssoc r).map Prod.fst =
      [strL "summary_id", strL "user_id", strL "platform", strL "message_id",
       strL "summary", strL "intent", strL "urgency", strL "entities",
       strL "context_flags", strL "generated_at", strL "device_context"] ∧
    r.urgency ∈ [strL "low", strL "medium", strL "high"] ∧
    r.intent ∈ [strL "meeting", strL "reminder", strL "question", strL "task",
      strL "note"] := by
  unfold summarize_message at h
  dsimp only at h
  split at h
  · simp at h
  · simp only [Except.ok.injEq] at h
    subst h
    refine ⟨rfl, classify_urgency_mem .., map_intent_mem ..⟩

/-- C2 (witness): the amended field/enumeration property at the concrete
payload `pl2`. -/
theorem C2_required_fields_witness :
    (summarize_message pl2 u0 now0 true []).1 = .ok rec2 ∧
    ((recordAssoc rec2).map Prod.fst =
      [strL "summary_id", strL "user_id", strL "platform", strL "message_id",
       strL "summary", strL "intent", strL "urgency", strL "entities",
       strL "context_flags", strL "generated_at", strL "device_context"] ∧
    rec2.urgency ∈ [strL "low", strL "medium", strL "high"] ∧
    rec2.intent ∈ [strL "meeting", strL "reminder", strL "question", strL "task",
      strL "note"]) :=
  ⟨rfl, C2_required_fields pl2 u0 now0 true [] rec2 rfl⟩

/-- C3 (counterexample): on the email platform, the v4 pipeline first
collapses all whitespace (including newlines) in `unify_punctuation`, so the
signature block after a `Regards,` line is back on the single remaining line
when `_email_clean` runs, is not discarded, and `Alice` from the signature
is extracted as a person. -/
theorem C3_counterexample :
    ∃ r, (summarize_message pl3 u0 now0 true []).1 = .ok r ∧
      strL "Alice" ∈ r.entities.person :=
  ⟨_, rfl, by decide⟩

/-- C3 (amended): for `_email_clean` itself — on the line structure it was
written for — a line whose stripped form begins with `Regards,` and every
line after it (assuming none of them re-captures a subject) contribute
nothing to the cleaned text, hence nothing to the extracted people. -/
theorem C3_signature_suppressed (pre rest : List Str) (r : Str)
    (hr : strStarts (strL "Regards,") (pyStrip r) = true)
    (hsub : ∀ l ∈ rest, strStarts (strL "subject:") (strLower (pyStrip l)) = false) :
    emailCleanLines (pre ++ r :: rest) = emailCleanLines pre ∧
    extract_people (emailCleanLines (pre ++ r :: rest)) =
      extract_people (emailCleanLines pre) := by
  have h := emailLoop_regards_cut r rest hr hsub pre false none
  constructor
  · unfold emailCleanLines
    rw [h]
  · unfold emailCleanLines
    rw [h]

/-- C3 (witness): the amended suppression property at a concrete three-line
email. -/
theorem C3_signature_suppressed_witness :
    emailCleanLines [strL "Hello Priya", strL "Regards,", strL "Alice"] =
      emailCleanLines [strL "Hello Priya"] ∧
    extract_people (emailCleanLines [strL "Hello Priya", strL "Regards,", strL "Alice"]) =
      extract_people (emailCleanLines [strL "Hello Priya"]) :=
  C3_signature_suppressed [strL "Hello Priya"] [strL "Alice"] (strL "Regards,")
    (by decide) (by decide)

/-- C4 (counterexample): a weekday-name match alone does not suffice for a
datetime entity — `"monday"` names a weekday, yet extraction returns no
datetime (the weekday only sets a day offset; without a time-of-day match no
entity is produced). -/
theorem C4_counterexample :
    findWeekdayIdx (strLower (strL "monday")) = some 0 ∧
    extract_datetime (strL "monday") now0 = .ok none :=
  ⟨rfl, rfl⟩

/-- C4 (amended): when the text names a weekday, the computed day offset
lands on the next occurrence of that weekday strictly after the anchor
(offset between 1 and 7; +7 when the named day is the anchor's own weekday),
and together with a default time-of-day keyword the extractor resolves
exactly that day at that time. -/
theorem C4_weekday_resolution (text : Str) (anchor : PyDateTime) (i : Nat)
    (hw : findWeekdayIdx (strLower text) = some i) :
    (day_offset_of (strLower text) anchor = weekdayDiff i (pyWeekday anchor.days) ∧
     1 ≤ day_offset_of (strLower text) anchor ∧
     day_offset_of (strLower text) anchor ≤ 7 ∧
     pyWeekday (anchor.days + day_offset_of (strLower text) anchor) = i ∧
     (pyWeekday anchor.days = (i : Int) → day_offset_of (strLower text) anchor = 7)) ∧
    (∀ h m, firstDefaultTime (strLower text) = some (h, m) →
      extract_datetime text anchor =
        .ok (some { days := anchor.days + day_offset_of (strLower text) anchor,
                    hour := h, minute := m, second := 0 })) := by
  have hi : i < 7 := findWeekdayIdx_lt _ _ hw
  have hoff : day_offset_of (strLower text) anchor = weekdayDiff i (pyWeekday anchor.days) := by
    unfold day_offset_of
    rw [hw]
  constructor
  · refine ⟨hoff, ?_, ?_, ?_, ?_⟩ <;> rw [hoff] <;> unfold weekdayDiff pyWeekday <;>
      dsimp only
    · split <;> omega
    · split <;> omega
    · split <;> omega
    · intro hweq2
      split <;> omega
  · intro h m hf
    obtain ⟨hh, hm⟩ := firstDefaultTime_valid _ _ _ hf
    unfold extract_datetime
    dsimp only
    rw [hf]
    simp [pyDatetimeOnDay, hh, hm, Except.map]

/-- C4 (witness): the amended weekday property at `"monday morning"` against
the Thursday anchor. -/
theorem C4_weekday_resolution_witness :
    extract_datetime (strL "monday morning") now0 =
      .ok (some { days := now0.days + day_offset_of (strLower (strL "monday morning")) now0,
                  hour := 9, minute := 0, second := 0 }) := by
  have h := C4_weekday_resolution (strL "monday morning") now0 0 (by rfl)
  exact h.2 9 0 (by rfl)

/-- C5 (counterexample): `"wow!!!"` carries three exclamation marks in the
raw pre-normalization text, yet the summarize pipeline classifies it `low`:
`detect_repeated_text` collapses the run of `!` to a single one before the
urgency classifier ever counts them. -/
theorem C5_counterexample :
    3 ≤ countBangs (strL "wow!!!") ∧
    ∃ r, (summarize_message pl5 u0 now0 true []).1 = .ok r ∧
      r.urgency = strL "low" :=
  ⟨by decide, _, rfl, rfl⟩

/-- C5 (amended): the urgency classifier implements exactly the claimed
cascade over the text it receives (after platform cleaning, not the raw
pre-normalization text): keyword presence or at least three exclamation
marks give `high` before any date reasoning; with a resolved datetime the
6-hour/48-hour thresholds apply; otherwise the soft-deadline keywords give
`medium`, default `low`.  In particular a text containing `ASAP` stays
`high` regardless of any resolved datetime. -/
theorem C5_urgency_cascade (text : Str) (dt : Option PyDateTime) (anchor : PyDateTime) :
    classify_urgency text dt anchor = urgencySpec text dt anchor ∧
    classify_urgency (strL "ASAP! urgent!!!") dt anchor = strL "high" := by
  constructor
  · unfold classify_urgency urgencySpec
    dsimp only
    by_cases h1 : containsAny (strLower text) [strL "emergency", strL "critical",
        strL "urgent", strL "asap", strL "immediately", strL "high priority",
        strL "priority"] = true
    · rw [if_pos h1, if_pos (by simp [h1])]
    · by_cases h2 : 3 ≤ countBangs (strLower text)
      · rw [if_neg h1, if_pos h2, if_pos (by simp [h2])]
      · have h3 : ¬((containsAny (strLower text) [strL "emergency", strL "critical",
            strL "urgent", strL "asap", strL "immediately", strL "high priority",
            strL "priority"] || decide (3 <= countBangs (strLower text))) = true) := by
          simp [h1, h2]
        rw [if_neg h1, if_neg h2, if_neg h3]
  · unfold classify_urgency
    dsimp only
    rw [if_pos (by decide)]

/-- C6: with anchor `2025-11-20T14:00:00Z` and the message
`"Let's meet tomorrow at 5 pm"`, the pipeline resolves the datetime entity
to exactly `2025-11-21T17:00:00Z`; and at the extractor level the
`tomorrow` day offset combines with the 12-hour conversion in which `pm`
adds 12 unless the hour is already 12 and `am` zeroes hour 12. -/
theorem C6_tomorrow_5pm :
    (∃ r, (summarize_message pl6 u0 now0 true []).1 = .ok r ∧
       r.entities.datetime = some (strL "2025-11-21T17:00:00Z")) ∧
    extract_datetime (strL "tomorrow at 5 pm") now0 =
      .ok (some { days := now0.days + 1, hour := 17, minute := 0, second := 0 }) ∧
    extract_datetime (strL "tomorrow at 12 pm") now0 =
      .ok (some { days := now0.days + 1, hour := 12, minute := 0, second := 0 }) ∧
    extract_datetime (strL "tomorrow at 12 am") now0 =
      .ok (some { days := now0.days + 1, hour := 0, minute := 0, second := 0 }) :=
  ⟨⟨_, rfl, rfl⟩, rfl, rfl, rfl⟩

/-- C7: whether the store write succeeds or raises, the summarize response
is identical, and a failing write leaves the store untouched. -/
theorem C7_write_failure_response (p : Payload) (u : Str) (now : PyDateTime) (st : Store) :
    (summarize_message p u now false st).1 = (summarize_message p u now true st).1 ∧
    (summarize_message p u now false st).2 = st := by
  unfold summarize_message
  dsimp only
  constructor
  · split <;> rfl
  · split <;> rfl

/-- C8: a record produced by a successful summarize call with a successful
write, fetched back by its identifier from the resulting store, returns the
identical summary, intent, urgency and generation timestamp, with entities
deserialized back to the same structured value. -/
theorem C8_store_roundtrip (p : Payload) (u : Str) (now : PyDateTime) (st : Store)
    (r : SummaryRecordV4) (h : (summarize_message p u now true st).1 = .ok r) :
    fetch_summary_v4 r.summary_id (summarize_message p u now true st).2 =
      some { summary_id := r.summary_id, user_id := r.user_id, platform := r.platform,
             message_id := r.message_id, summary := r.summary, intent := r.intent,
             urgency := r.urgency, entities := entitiesToJson r.entities,
             generated_at := r.generated_at } := by
  rw [save_of_ok p u now st r h, fetch_after_save]

/-- C8 (witness): the round-trip at the concrete payload `pl8` on the empty
store. -/
theorem C8_store_roundtrip_witness :
    (summarize_message pl8 u0 now0 true []).1 = .ok rec8 ∧
    fetch_summary_v4 rec8.summary_id (summarize_message pl8 u0 now0 true []).2 =
      some { summary_id := rec8.summary_id, user_id := rec8.user_id,
             platform := rec8.platform, message_id := rec8.message_id,
             summary := rec8.summary, intent := rec8.intent,
             urgency := rec8.urgency, entities := entitiesToJson rec8.entities,
             generated_at := rec8.generated_at } :=
  ⟨rfl, C8_store_roundtrip pl8 u0 now0 [] rec8 rfl⟩

/-- C9: two summarize calls whose `uuid4().hex` draws differ in their first
8 characters yield records with distinct summary identifiers, whatever the
payloads (in particular on the identical payload); the identifier is built
from the fresh draw, not from the message content. -/
theorem C9_distinct_ids (p q : Payload) (u v : Str) (n1 n2 : PyDateTime)
    (w1 w2 : Bool) (s1 s2 : Store) (r1 r2 : SummaryRecordV4)
    (h1 : (summarize_message p u n1 w1 s1).1 = .ok r1)
    (h2 : (summarize_message q v n2 w2 s2).1 = .ok r2)
    (hu : u.take 8 ≠ v.take 8) :
    r1.summary_id ≠ r2.summary_id := by
  rw [summary_id_of_ok p u n1 w1 s1 r1 h1, summary_id_of_ok q v n2 w2 s2 r2 h2]
  exact make_summary_id_ne u v hu

/-- C9 (witness): summarizing the identical payload `pl9` twice with two
fresh draws yields distinct identifiers. -/
theorem C9_distinct_ids_witness :
    (summarize_message pl9 uA now0 true []).1 = .ok rec9a ∧
    (summarize_message pl9 uB now0 true []).1 = .ok rec9b ∧
    rec9a.summary_id ≠ rec9b.summary_id :=
  ⟨rfl, rfl,
   C9_distinct_ids pl9 pl9 uA uB now0 now0 true true [] [] rec9a rec9b rfl rfl
     (by decide)⟩

/-- C10: the device-context guess is exactly the claimed first-match,
case-insensitive substring scan over the fixed rule table (the platform
argument is irrelevant), and the substrings match anywhere — a text
containing `machine`, with no earlier marker, yields `macos`. -/
theorem C10_device_scan :
    (∀ platform raw, detect_device_context platform raw = deviceContextSpec raw) ∧
    detect_device_context (strL "chat") (strL "The machine is down") = strL "macos" := by
  constructor
  · intro platform raw
    unfold detect_device_context deviceContextSpec deviceContextRules
    dsimp only
    simp only [firstRuleMatch, List.any_cons, List.any_nil, Bool.or_false, Bool.or_assoc]
  · rfl
